import Mathlib

/-!
# Wings: the glider flight model (`AGliderBase`)

A shallow embedding of `Source/Wings/GliderBase.cpp` and `GliderBase.h`.

Conventions of the embedding:

* a C++ `float` is a rational number (`ℚ`); infinities and NaN are not represented. `Tick`
  and `SlewToward` compute in exact arithmetic; `TickR` and `SlewTowardR` are the same code
  with every arithmetic operation followed by a rounding `fl`, and `f32` is the rounding of
  single precision, so that `TickR f32` is the frame as the program computes it and
  `TickR id` is `Tick`;
* a `UCurveFloat*` asset is the total function `GetFloatValue` it evaluates to (asset
  references are taken to be resolved);
* an `AActor*` is the natural number identifying the actor;
* `TArray<AActor*>` is a `List`;
* the sine of the C runtime is a field of the settings (`Sin`), since it is not a rational
  function;
* the calls `Tick` makes on the host actor are returned, in order, next to the new state.
-/

namespace Wings

/-! ## Engine arithmetic (`FMath`) -/

namespace FMath

/-- Modelled from the spec: the engine template `FMath::Clamp` (engine code, outside this
repository), `X < Min ? Min : X < Max ? X : Max`, the spec's `clamp(v, lo, hi)`. -/
def Clamp (X Min Max : ℚ) : ℚ :=
  if X < Min then Min else if X < Max then X else Max

/-- Modelled from the spec: the engine template `FMath::Lerp` (engine code, outside this
repository), `A + Alpha * (B - A)`, the spec's linear interpolation from `A` toward `B`. -/
def Lerp (A B Alpha : ℚ) : ℚ :=
  A + Alpha * (B - A)

/-- Modelled from the spec: the engine template `FMath::Abs` (engine code, outside this
repository), `A >= 0 ? A : -A`. -/
def Abs (A : ℚ) : ℚ :=
  if A ≥ 0 then A else -A

/-- Modelled from the spec: the engine template `FMath::Max` (engine code, outside this
repository), `A >= B ? A : B`. -/
def Max (A B : ℚ) : ℚ :=
  if A ≥ B then A else B

/-- Modelled from the spec: the engine template `FMath::Min` (engine code, outside this
repository), `A <= B ? A : B`. -/
def Min (A B : ℚ) : ℚ :=
  if A ≤ B then A else B

/-- Modelled from the spec: the engine constant `SMALL_NUMBER` (`1.e-8f`), the tolerance of
the spec's "(nearly) zero". -/
def SMALL_NUMBER : ℚ := 1 / 100000000

/-- Modelled from the spec: the engine function `FMath::IsNearlyZero` with its default
tolerance, `Abs(Value) <= SMALL_NUMBER`. -/
def IsNearlyZero (Value : ℚ) : Bool :=
  decide (Abs Value ≤ SMALL_NUMBER)

/-- Modelled from the spec: the engine constant `PI` (`3.1415926535897932f`). -/
def PI : ℚ := 31415926535897932 / 10000000000000000

/-- Modelled from the spec: the engine function `FMath::DegreesToRadians`,
`DegVal * (PI / 180.f)`. -/
def DegreesToRadians (DegVal : ℚ) : ℚ :=
  DegVal * (PI / 180)

end FMath

/-! ## Data model -/

/-- A response curve asset, `UCurveFloat`, seen through its only use, `GetFloatValue`. -/
structure UCurveFloat where
  /-- Evaluate the curve at a point. -/
  GetFloatValue : ℚ → ℚ

/-- An actor pointer `AActor*`, identified by a number. -/
abbrev AActor := Nat

/-- The designer-tunable members of `AGliderBase` that `Tick` reads and never writes,
together with the C runtime sine. -/
structure GliderSettings where
  MaxPitchByVelocityCurve : UCurveFloat
  NeutralPitchByVelocityCurve : UCurveFloat
  NeutralPitchByRollCurve : UCurveFloat
  MinPitch : ℚ
  PitchInputSlewByAmountToLimitCurve : UCurveFloat
  PitchNoInputSlew : ℚ
  PitchSlewByAmountToLimitCurve : UCurveFloat
  MaxRoll : ℚ
  RollInputSlewByAmountToLimitCurve : UCurveFloat
  RollNoInputSlew : ℚ
  RollSlewByAmountToLimitCurve : UCurveFloat
  DeltaYawByRollCurve : UCurveFloat
  VelocityScale : ℚ
  DeltaVelocityByVerticalVelocityCurve : UCurveFloat
  Gravity : ℚ
  ThermalLiftMaxVelocity : ℚ
  ThermalLiftAcceleration : ℚ
  /-- The sine `FMath::Sin` of the C runtime, on radians. -/
  Sin : ℚ → ℚ

/-- The members of `AGliderBase` that the handlers and `Tick` write. `DebugStateString` is kept
as the two numbers it prints (velocity, pitch). -/
structure GliderState where
  DebugStateString : ℚ × ℚ
  OverlappingThermals : List AActor
  ThermalLift : ℚ
  NeutralPitch : ℚ
  SlewedInputPitch : ℚ
  Pitch : ℚ
  SlewedInputRoll : ℚ
  Roll : ℚ
  Yaw : ℚ
  TargetVelocity : ℚ
  Velocity : ℚ
  RightInputAxis : ℚ
  UpInputAxis : ℚ

/-- The state of a freshly constructed glider: the member initialisers of `GliderBase.h`. -/
def GliderState.initial : GliderState where
  DebugStateString := (0, 0)
  OverlappingThermals := []
  ThermalLift := 0
  NeutralPitch := 0
  SlewedInputPitch := 0
  Pitch := 0
  SlewedInputRoll := 0
  Roll := 0
  Yaw := 0
  TargetVelocity := 0
  Velocity := 0
  RightInputAxis := 0
  UpInputAxis := 0

/-- The number of recorded thermals, `OverlappingThermals.Num()` (an `int32`). -/
def GliderState.Num (s : GliderState) : Int :=
  (s.OverlappingThermals.length : Int)

/-- A call made by `Tick` on the host actor. -/
inductive HostCall where
  /-- The call `SetActorRotation(FRotator(Pitch, Yaw, Roll))`. -/
  | SetActorRotation (Pitch Yaw Roll : ℚ)
  /-- The call `AddActorLocalOffset(FVector(X, Y, Z))`. -/
  | AddActorLocalOffset (X Y Z : ℚ)
  /-- The call `AddActorWorldOffset(FVector(X, Y, Z))`. -/
  | AddActorWorldOffset (X Y Z : ℚ)

/-! ## Operations -/

/-- The six-argument `SlewToward` of the anonymous namespace (`GliderBase.cpp`, lines 14-19),
in exact arithmetic; `SlewTowardR` below is the same with rounded arithmetic. -/
def SlewToward (current target min max : ℚ) (slewAmountByAmountToLimitCurve : UCurveFloat)
    (deltaTime : ℚ) : ℚ :=
  let amountToLimit := if target > current then max - current else current - min
  let slew := slewAmountByAmountToLimitCurve.GetFloatValue amountToLimit
  FMath.Lerp current target (slew * deltaTime)

/-- The function `SignedSquare` of the anonymous namespace (`GliderBase.cpp`, lines 81-91). -/
def SignedSquare (f : ℚ) : ℚ :=
  if f < 0 then -(f * f) else f * f

/-- The handler `AGliderBase::NotifyThermalBeginOverlap`: `OverlappingThermals.Add(thermal)`.
`TArray::Add` appends the element, whether or not it is already present. -/
def NotifyThermalBeginOverlap (s : GliderState) (thermal : AActor) : GliderState :=
  { s with OverlappingThermals := s.OverlappingThermals ++ [thermal] }

/-- The handler `AGliderBase::NotifyThermalEndOverlap`: `OverlappingThermals.Remove(thermal)`.
`TArray::Remove` (engine container, `Containers/Array.h`) removes every element equal to its
argument and keeps the order of the others; `RemoveSingle` is the variant that removes one. -/
def NotifyThermalEndOverlap (s : GliderState) (thermal : AActor) : GliderState :=
  { s with OverlappingThermals := s.OverlappingThermals.filter (fun a => !(a == thermal)) }

/-- The handler `AGliderBase::MoveUpInput`. -/
def MoveUpInput (s : GliderState) (Val : ℚ) : GliderState :=
  { s with UpInputAxis := FMath.Clamp Val (-1) 1 }

/-- The handler `AGliderBase::MoveRightInput`. -/
def MoveRightInput (s : GliderState) (Val : ℚ) : GliderState :=
  { s with RightInputAxis := FMath.Clamp Val (-1) 1 }

/-- The per-frame update `AGliderBase::Tick` (`GliderBase.cpp`, lines 95-278), statement by
statement, in exact arithmetic: the new state and the host calls, in the order they are made.
`TickR` below is the same frame with rounded arithmetic. -/
def Tick (cfg : GliderSettings) (s : GliderState) (DeltaTime : ℚ) :
    GliderState × List HostCall :=
  -- PITCH
  let NeutralPitch := cfg.NeutralPitchByVelocityCurve.GetFloatValue s.Velocity
    + cfg.NeutralPitchByRollCurve.GetFloatValue (FMath.Abs s.Roll)
  let maxPitch := cfg.MaxPitchByVelocityCurve.GetFloatValue s.Velocity
  let inputPitch :=
    if s.UpInputAxis < 0 then FMath.Lerp NeutralPitch maxPitch (-s.UpInputAxis)
    else FMath.Lerp NeutralPitch cfg.MinPitch s.UpInputAxis
  let SlewedInputPitch :=
    if FMath.IsNearlyZero s.UpInputAxis then
      FMath.Lerp s.SlewedInputPitch inputPitch (cfg.PitchNoInputSlew * DeltaTime)
    else
      SlewToward s.SlewedInputPitch inputPitch cfg.MinPitch maxPitch
        cfg.PitchInputSlewByAmountToLimitCurve DeltaTime
  let Pitch := SlewToward s.Pitch SlewedInputPitch cfg.MinPitch maxPitch
    cfg.PitchSlewByAmountToLimitCurve DeltaTime
  -- ROLL
  let inputRoll := s.RightInputAxis * cfg.MaxRoll
  let SlewedInputRoll :=
    if FMath.IsNearlyZero inputRoll then
      FMath.Lerp s.SlewedInputRoll inputRoll (cfg.RollNoInputSlew * DeltaTime)
    else
      SlewToward s.SlewedInputRoll inputRoll (-cfg.MaxRoll) cfg.MaxRoll
        cfg.RollInputSlewByAmountToLimitCurve DeltaTime
  let Roll := SlewToward s.Roll SlewedInputRoll (-cfg.MaxRoll) cfg.MaxRoll
    cfg.RollSlewByAmountToLimitCurve DeltaTime
  -- YAW
  let deltaYaw :=
    if Roll ≥ 0 then cfg.DeltaYawByRollCurve.GetFloatValue Roll
    else -cfg.DeltaYawByRollCurve.GetFloatValue (-Roll)
  let Yaw₁ := s.Yaw + deltaYaw * DeltaTime + 360
  let Yaw := if Yaw₁ > 360 then Yaw₁ - 360 else Yaw₁
  -- VELOCITY
  let sinPitch := cfg.Sin (FMath.DegreesToRadians Pitch)
  let verticalVelocity := sinPitch * s.Velocity
  let Velocity₁ := s.Velocity
    + cfg.DeltaVelocityByVerticalVelocityCurve.GetFloatValue verticalVelocity * DeltaTime
  let Velocity₂ := Velocity₁ - SignedSquare sinPitch * cfg.Gravity * DeltaTime
  let Velocity := FMath.Clamp Velocity₂ (1 / 100) 1
  -- THERMALS
  let ThermalLift :=
    if s.Num > 0 then
      FMath.Min cfg.ThermalLiftMaxVelocity (s.ThermalLift + cfg.ThermalLiftAcceleration * DeltaTime)
    else
      FMath.Max 0 (s.ThermalLift - cfg.ThermalLiftAcceleration * DeltaTime)
  -- UPDATE ACTOR, DEBUG STRING
  ({ DebugStateString := (Velocity, Pitch)
     OverlappingThermals := s.OverlappingThermals
     ThermalLift := ThermalLift
     NeutralPitch := NeutralPitch
     SlewedInputPitch := SlewedInputPitch
     Pitch := Pitch
     SlewedInputRoll := SlewedInputRoll
     Roll := Roll
     Yaw := Yaw
     TargetVelocity := s.TargetVelocity
     Velocity := Velocity
     RightInputAxis := s.RightInputAxis
     UpInputAxis := s.UpInputAxis },
   [ HostCall.SetActorRotation Pitch Yaw Roll,
     HostCall.AddActorLocalOffset (Velocity * cfg.VelocityScale * DeltaTime) 0 0,
     HostCall.AddActorWorldOffset 0 0 (ThermalLift * DeltaTime) ])

/-- The local `deltaYaw` of `Tick` (line 228), as a function of the roll updated in the same
frame. -/
def deltaYaw (cfg : GliderSettings) (Roll : ℚ) : ℚ :=
  if Roll ≥ 0 then cfg.DeltaYawByRollCurve.GetFloatValue Roll
  else -cfg.DeltaYawByRollCurve.GetFloatValue (-Roll)

/-! ## Runs: the calls the host can make on a glider -/

/-- One call of the host on the glider. -/
inductive Event where
  /-- A frame: `Tick(DeltaTime)`. -/
  | tick (DeltaTime : ℚ)
  /-- A trigger volume is entered: `NotifyThermalBeginOverlap(thermal)`. -/
  | beginOverlap (thermal : AActor)
  /-- A trigger volume is left: `NotifyThermalEndOverlap(thermal)`. -/
  | endOverlap (thermal : AActor)
  /-- The vertical axis is delivered: `MoveUpInput(Val)`. -/
  | moveUp (Val : ℚ)
  /-- The horizontal axis is delivered: `MoveRightInput(Val)`. -/
  | moveRight (Val : ℚ)

/-- The state after one call of the host. -/
def step (cfg : GliderSettings) (s : GliderState) : Event → GliderState
  | Event.tick DeltaTime => (Tick cfg s DeltaTime).1
  | Event.beginOverlap thermal => NotifyThermalBeginOverlap s thermal
  | Event.endOverlap thermal => NotifyThermalEndOverlap s thermal
  | Event.moveUp Val => MoveUpInput s Val
  | Event.moveRight Val => MoveRightInput s Val

/-- The state after a sequence of calls, oldest first. -/
def run (cfg : GliderSettings) (s : GliderState) (es : List Event) : GliderState :=
  es.foldl (step cfg) s

/-- Every frame of the run has a non-negative `DeltaTime`. -/
def Event.timeOk : Event → Prop
  | Event.tick DeltaTime => 0 ≤ DeltaTime
  | _ => True

/-- Settings for examples: every curve is the constant `c`, and `Sin` is constantly `0`. -/
def constSettings (c MaxRoll liftMax liftAcc : ℚ) : GliderSettings where
  MaxPitchByVelocityCurve := ⟨fun _ => c⟩
  NeutralPitchByVelocityCurve := ⟨fun _ => c⟩
  NeutralPitchByRollCurve := ⟨fun _ => c⟩
  MinPitch := 0
  PitchInputSlewByAmountToLimitCurve := ⟨fun _ => c⟩
  PitchNoInputSlew := c
  PitchSlewByAmountToLimitCurve := ⟨fun _ => c⟩
  MaxRoll := MaxRoll
  RollInputSlewByAmountToLimitCurve := ⟨fun _ => c⟩
  RollNoInputSlew := c
  RollSlewByAmountToLimitCurve := ⟨fun _ => c⟩
  DeltaYawByRollCurve := ⟨fun _ => c⟩
  VelocityScale := 3500
  DeltaVelocityByVerticalVelocityCurve := ⟨fun _ => c⟩
  Gravity := 1
  ThermalLiftMaxVelocity := liftMax
  ThermalLiftAcceleration := liftAcc
  Sin := fun _ => 0

/-- A fresh glider with chosen heading, bank, lift and recorded thermals, for examples. -/
def exampleState (Yaw Roll ThermalLift : ℚ) (thermals : List AActor) : GliderState :=
  { GliderState.initial with
    Yaw := Yaw, Roll := Roll, ThermalLift := ThermalLift, OverlappingThermals := thermals }

/-- Modelled from the spec: the `sign` of the spec, with `sign(0) = 0`. -/
def sign (x : ℚ) : ℚ :=
  if x < 0 then -1 else if x = 0 then 0 else 1

/-- Modelled from the spec: `signedSquare(x) = sign(x) * x²`, in the spec's words. -/
def signedSquareSpec (x : ℚ) : ℚ :=
  sign x * x ^ 2

/-- Settings for examples with separate roll constants: `RollNoInputSlew` is `noInput`, the two
roll slew curves are constantly `curve`, every other curve is constantly `0`. -/
def rollSettings (noInput curve MaxRoll : ℚ) : GliderSettings :=
  { constSettings 0 MaxRoll 500 1000 with
    RollNoInputSlew := noInput
    RollInputSlewByAmountToLimitCurve := ⟨fun _ => curve⟩
    RollSlewByAmountToLimitCurve := ⟨fun _ => curve⟩ }

/-- A fresh glider with chosen roll state and right axis, for examples. -/
def rollState (SlewedInputRoll Roll RightInputAxis : ℚ) : GliderState :=
  { GliderState.initial with
    SlewedInputRoll := SlewedInputRoll, Roll := Roll, RightInputAxis := RightInputAxis }

/-- The state after `n` frames of `DeltaTime = 0`. -/
def restTicks (cfg : GliderSettings) (s : GliderState) (n : Nat) : GliderState :=
  run cfg s (List.replicate n (Event.tick 0))

/-- What a frame of `DeltaTime = 0` with no recorded thermal keeps, apart from a heading that may
still be wrapped: velocity in `[0.01, 1.0]`, lift `≥ 0`, and the derived members
(`NeutralPitch`, `DebugStateString`) already computed from the stored ones. -/
def settled (cfg : GliderSettings) (s : GliderState) : Prop :=
  s.OverlappingThermals = []
    ∧ (1 / 100 ≤ s.Velocity ∧ s.Velocity ≤ 1)
    ∧ 0 ≤ s.ThermalLift
    ∧ s.NeutralPitch = cfg.NeutralPitchByVelocityCurve.GetFloatValue s.Velocity
        + cfg.NeutralPitchByRollCurve.GetFloatValue (FMath.Abs s.Roll)
    ∧ s.DebugStateString = (s.Velocity, s.Pitch)

/-! ## Binary32 rounding, and the frame with every operation rounded

The definitions above compute in exact arithmetic. The ones below take the rounding of the
arithmetic as a parameter `fl`: every `+`, `-` and `*` of the source is followed by `fl`, and a
`float` literal `c` is `fl c`. With `fl = id` they are the definitions above; with `fl = f32`
they are the program in single precision, each operation rounded on its own (no fused
multiply-add, no wider intermediate format). -/

/-- Round to the nearest integer, ties to the even one. -/
def roundNE (y : ℚ) : ℤ :=
  if y - ⌊y⌋ < 1 / 2 then ⌊y⌋
  else if 1 / 2 < y - ⌊y⌋ then ⌊y⌋ + 1
  else if ⌊y⌋ % 2 = 0 then ⌊y⌋ else ⌊y⌋ + 1

/-- Rounding of a non-negative number to a 24-bit significand: with `2^e ≤ x < 2^(e+1)` the
result is the multiple of `2^(e-23)` nearest to `x`, ties to even. -/
def f32pos (x : ℚ) : ℚ :=
  (roundNE (x / (2 : ℚ) ^ (Int.log 2 x - 23)) : ℚ) * (2 : ℚ) ^ (Int.log 2 x - 23)

/-- Rounding to binary32 precision (24-bit significand, round to nearest, ties to even), the
arithmetic of a C++ `float`. The exponent range is not bounded: there is no overflow to
infinity and no subnormal range. -/
def f32 (x : ℚ) : ℚ :=
  if x < 0 then -f32pos (-x) else f32pos x

/-- What the results below use of a rounding: it is monotone, it keeps `0`, and a rounded value
is not changed by rounding it again. -/
def IsRounding (fl : ℚ → ℚ) : Prop :=
  Monotone fl ∧ fl 0 = 0 ∧ ∀ x : ℚ, fl (fl x) = fl x

/-- Modelled from the spec: `FMath::Lerp`, `A + Alpha * (B - A)`, each operation rounded. -/
def FMath.LerpR (fl : ℚ → ℚ) (A B Alpha : ℚ) : ℚ :=
  fl (A + fl (Alpha * fl (B - A)))

/-- Modelled from the spec: `FMath::IsNearlyZero`, `Abs(Value) <= SMALL_NUMBER`, with the
`float` literal `1.e-8f`. -/
def FMath.IsNearlyZeroR (fl : ℚ → ℚ) (Value : ℚ) : Bool :=
  decide (FMath.Abs Value ≤ fl FMath.SMALL_NUMBER)

/-- Modelled from the spec: `FMath::DegreesToRadians`, `DegVal * (PI / 180.f)`, with the
`float` literal `PI` and each operation rounded. -/
def FMath.DegreesToRadiansR (fl : ℚ → ℚ) (DegVal : ℚ) : ℚ :=
  fl (DegVal * fl (fl FMath.PI / 180))

/-- The local `amountToLimit` of `SlewToward` (line 16), rounded. -/
def amountToLimitR (fl : ℚ → ℚ) (current target min max : ℚ) : ℚ :=
  if target > current then fl (max - current) else fl (current - min)

/-- The six-argument `SlewToward` (`GliderBase.cpp`, lines 14-19), each operation rounded. -/
def SlewTowardR (fl : ℚ → ℚ) (current target min max : ℚ)
    (slewAmountByAmountToLimitCurve : UCurveFloat) (deltaTime : ℚ) : ℚ :=
  let amountToLimit := if target > current then fl (max - current) else fl (current - min)
  let slew := slewAmountByAmountToLimitCurve.GetFloatValue amountToLimit
  FMath.LerpR fl current target (fl (slew * deltaTime))

/-- The function `SignedSquare` (`GliderBase.cpp`, lines 81-91), the product rounded. -/
def SignedSquareR (fl : ℚ → ℚ) (f : ℚ) : ℚ :=
  if f < 0 then -(fl (f * f)) else fl (f * f)

/-- The per-frame update `AGliderBase::Tick` (`GliderBase.cpp`, lines 95-278) with every
arithmetic operation rounded by `fl`, statement by statement as in `Tick`. -/
def TickR (fl : ℚ → ℚ) (cfg : GliderSettings) (s : GliderState) (DeltaTime : ℚ) :
    GliderState × List HostCall :=
  -- PITCH
  let NeutralPitch := fl (cfg.NeutralPitchByVelocityCurve.GetFloatValue s.Velocity
    + cfg.NeutralPitchByRollCurve.GetFloatValue (FMath.Abs s.Roll))
  let maxPitch := cfg.MaxPitchByVelocityCurve.GetFloatValue s.Velocity
  let inputPitch :=
    if s.UpInputAxis < 0 then FMath.LerpR fl NeutralPitch maxPitch (-s.UpInputAxis)
    else FMath.LerpR fl NeutralPitch cfg.MinPitch s.UpInputAxis
  let SlewedInputPitch :=
    if FMath.IsNearlyZeroR fl s.UpInputAxis then
      FMath.LerpR fl s.SlewedInputPitch inputPitch (fl (cfg.PitchNoInputSlew * DeltaTime))
    else
      SlewTowardR fl s.SlewedInputPitch inputPitch cfg.MinPitch maxPitch
        cfg.PitchInputSlewByAmountToLimitCurve DeltaTime
  let Pitch := SlewTowardR fl s.Pitch SlewedInputPitch cfg.MinPitch maxPitch
    cfg.PitchSlewByAmountToLimitCurve DeltaTime
  -- ROLL
  let inputRoll := fl (s.RightInputAxis * cfg.MaxRoll)
  let SlewedInputRoll :=
    if FMath.IsNearlyZeroR fl inputRoll then
      FMath.LerpR fl s.SlewedInputRoll inputRoll (fl (cfg.RollNoInputSlew * DeltaTime))
    else
      SlewTowardR fl s.SlewedInputRoll inputRoll (-cfg.MaxRoll) cfg.MaxRoll
        cfg.RollInputSlewByAmountToLimitCurve DeltaTime
  let Roll := SlewTowardR fl s.Roll SlewedInputRoll (-cfg.MaxRoll) cfg.MaxRoll
    cfg.RollSlewByAmountToLimitCurve DeltaTime
  -- YAW
  let deltaYaw :=
    if Roll ≥ 0 then cfg.DeltaYawByRollCurve.GetFloatValue Roll
    else -cfg.DeltaYawByRollCurve.GetFloatValue (-Roll)
  let Yaw₁ := fl (fl (s.Yaw + fl (deltaYaw * DeltaTime)) + 360)
  let Yaw := if Yaw₁ > 360 then fl (Yaw₁ - 360) else Yaw₁
  -- VELOCITY
  let sinPitch := cfg.Sin (FMath.DegreesToRadiansR fl Pitch)
  let verticalVelocity := fl (sinPitch * s.Velocity)
  let Velocity₁ := fl (s.Velocity
    + fl (cfg.DeltaVelocityByVerticalVelocityCurve.GetFloatValue verticalVelocity * DeltaTime))
  let Velocity₂ := fl (Velocity₁ - fl (fl (SignedSquareR fl sinPitch * cfg.Gravity) * DeltaTime))
  let Velocity := FMath.Clamp Velocity₂ (fl (1 / 100)) 1
  -- THERMALS
  let ThermalLift :=
    if s.Num > 0 then
      FMath.Min cfg.ThermalLiftMaxVelocity
        (fl (s.ThermalLift + fl (cfg.ThermalLiftAcceleration * DeltaTime)))
    else
      FMath.Max 0 (fl (s.ThermalLift - fl (cfg.ThermalLiftAcceleration * DeltaTime)))
  -- UPDATE ACTOR, DEBUG STRING
  ({ DebugStateString := (Velocity, Pitch)
     OverlappingThermals := s.OverlappingThermals
     ThermalLift := ThermalLift
     NeutralPitch := NeutralPitch
     SlewedInputPitch := SlewedInputPitch
     Pitch := Pitch
     SlewedInputRoll := SlewedInputRoll
     Roll := Roll
     Yaw := Yaw
     TargetVelocity := s.TargetVelocity
     Velocity := Velocity
     RightInputAxis := s.RightInputAxis
     UpInputAxis := s.UpInputAxis },
   [ HostCall.SetActorRotation Pitch Yaw Roll,
     HostCall.AddActorLocalOffset (fl (fl (Velocity * cfg.VelocityScale) * DeltaTime)) 0 0,
     HostCall.AddActorWorldOffset 0 0 (fl (ThermalLift * DeltaTime)) ])

/-- The local `inputPitch` of `Tick` (lines 173-178) with rounded arithmetic, on the state
before the frame. -/
def inputPitchR (fl : ℚ → ℚ) (cfg : GliderSettings) (s : GliderState) : ℚ :=
  let NeutralPitch := fl (cfg.NeutralPitchByVelocityCurve.GetFloatValue s.Velocity
    + cfg.NeutralPitchByRollCurve.GetFloatValue (FMath.Abs s.Roll))
  let maxPitch := cfg.MaxPitchByVelocityCurve.GetFloatValue s.Velocity
  if s.UpInputAxis < 0 then FMath.LerpR fl NeutralPitch maxPitch (-s.UpInputAxis)
  else FMath.LerpR fl NeutralPitch cfg.MinPitch s.UpInputAxis

/-- Settings for examples of the pitch target: the neutral pitch curve by velocity is
constantly `neutral`, the one by roll constantly `0`, the pitch ceiling constantly `maxPitch`,
and the pitch floor is `MinPitch`. -/
def pitchSettings (neutral maxPitch MinPitch : ℚ) : GliderSettings :=
  { constSettings 0 45 500 1000 with
    NeutralPitchByVelocityCurve := ⟨fun _ => neutral⟩
    MaxPitchByVelocityCurve := ⟨fun _ => maxPitch⟩
    MinPitch := MinPitch }

/-! ## Reading the fields of `Tick` -/

theorem Tick_Velocity (cfg : GliderSettings) (s : GliderState) (dt : ℚ) :
    (Tick cfg s dt).1.Velocity =
      FMath.Clamp
        (s.Velocity
          + cfg.DeltaVelocityByVerticalVelocityCurve.GetFloatValue
              (cfg.Sin (FMath.DegreesToRadians (Tick cfg s dt).1.Pitch) * s.Velocity) * dt
          - SignedSquare (cfg.Sin (FMath.DegreesToRadians (Tick cfg s dt).1.Pitch))
              * cfg.Gravity * dt)
        (1 / 100) 1 :=
  rfl

theorem Tick_Yaw (cfg : GliderSettings) (s : GliderState) (dt : ℚ) :
    (Tick cfg s dt).1.Yaw =
      if s.Yaw + deltaYaw cfg (Tick cfg s dt).1.Roll * dt + 360 > 360
      then s.Yaw + deltaYaw cfg (Tick cfg s dt).1.Roll * dt + 360 - 360
      else s.Yaw + deltaYaw cfg (Tick cfg s dt).1.Roll * dt + 360 :=
  rfl

theorem Tick_SlewedInputRoll (cfg : GliderSettings) (s : GliderState) (dt : ℚ) :
    (Tick cfg s dt).1.SlewedInputRoll =
      if FMath.IsNearlyZero (s.RightInputAxis * cfg.MaxRoll) then
        FMath.Lerp s.SlewedInputRoll (s.RightInputAxis * cfg.MaxRoll) (cfg.RollNoInputSlew * dt)
      else
        SlewToward s.SlewedInputRoll (s.RightInputAxis * cfg.MaxRoll) (-cfg.MaxRoll) cfg.MaxRoll
          cfg.RollInputSlewByAmountToLimitCurve dt :=
  rfl

theorem Tick_ThermalLift (cfg : GliderSettings) (s : GliderState) (dt : ℚ) :
    (Tick cfg s dt).1.ThermalLift =
      if s.Num > 0 then
        FMath.Min cfg.ThermalLiftMaxVelocity (s.ThermalLift + cfg.ThermalLiftAcceleration * dt)
      else
        FMath.Max 0 (s.ThermalLift - cfg.ThermalLiftAcceleration * dt) :=
  rfl

theorem Tick_OverlappingThermals (cfg : GliderSettings) (s : GliderState) (dt : ℚ) :
    (Tick cfg s dt).1.OverlappingThermals = s.OverlappingThermals :=
  rfl

/-! ## Engine arithmetic: the facts used below -/

theorem FMath.Min_eq_min (A B : ℚ) : FMath.Min A B = min A B := by
  unfold FMath.Min
  split_ifs with h
  · exact (min_eq_left h).symm
  · exact (min_eq_right (le_of_lt (not_le.mp h))).symm

theorem FMath.Max_eq_max (A B : ℚ) : FMath.Max A B = max A B := by
  unfold FMath.Max
  split_ifs with h
  · exact (max_eq_left h).symm
  · exact (max_eq_right (le_of_lt (not_le.mp h))).symm

theorem FMath.Clamp_between (X Min Max : ℚ) (h : Min ≤ Max) :
    Min ≤ FMath.Clamp X Min Max ∧ FMath.Clamp X Min Max ≤ Max := by
  unfold FMath.Clamp
  split_ifs with h1 h2
  · exact ⟨le_refl _, h⟩
  · exact ⟨not_lt.mp h1, le_of_lt h2⟩
  · exact ⟨h, le_refl _⟩

theorem FMath.Clamp_eq_max_min (X Min Max : ℚ) (h : Min ≤ Max) :
    FMath.Clamp X Min Max = max Min (min X Max) := by
  unfold FMath.Clamp
  split_ifs with h1 h2
  · rw [max_eq_left]; exact le_trans (min_le_left _ _) (le_of_lt h1)
  · rw [min_eq_left (le_of_lt h2), max_eq_right (not_lt.mp h1)]
  · rw [min_eq_right (not_lt.mp h2), max_eq_right h]

theorem FMath.Clamp_of_between (X Min Max : ℚ) (h1 : Min ≤ X) (h2 : X ≤ Max) :
    FMath.Clamp X Min Max = X := by
  unfold FMath.Clamp
  split_ifs with h3 h4
  · exact absurd h1 (not_le.mpr h3)
  · rfl
  · exact le_antisymm (not_lt.mp h4) h2

/-! ## Thermal lift: one frame -/

theorem Tick_ThermalLift_overlap (cfg : GliderSettings) (s : GliderState) (dt : ℚ)
    (h : s.Num > 0) :
    (Tick cfg s dt).1.ThermalLift =
      min cfg.ThermalLiftMaxVelocity (s.ThermalLift + cfg.ThermalLiftAcceleration * dt) := by
  rw [Tick_ThermalLift, if_pos h, FMath.Min_eq_min]

theorem Tick_ThermalLift_clear (cfg : GliderSettings) (s : GliderState) (dt : ℚ)
    (h : ¬ s.Num > 0) :
    (Tick cfg s dt).1.ThermalLift =
      max 0 (s.ThermalLift - cfg.ThermalLiftAcceleration * dt) := by
  rw [Tick_ThermalLift, if_neg h, FMath.Max_eq_max]

theorem Tick_ThermalLift_between (cfg : GliderSettings) (s : GliderState) (dt : ℚ)
    (hmax : 0 ≤ cfg.ThermalLiftMaxVelocity) (hacc : 0 ≤ cfg.ThermalLiftAcceleration)
    (hdt : 0 ≤ dt) (hs : 0 ≤ s.ThermalLift ∧ s.ThermalLift ≤ cfg.ThermalLiftMaxVelocity) :
    0 ≤ (Tick cfg s dt).1.ThermalLift
      ∧ (Tick cfg s dt).1.ThermalLift ≤ cfg.ThermalLiftMaxVelocity := by
  have hstep : 0 ≤ cfg.ThermalLiftAcceleration * dt := mul_nonneg hacc hdt
  by_cases h : s.Num > 0
  · rw [Tick_ThermalLift_overlap cfg s dt h]
    exact ⟨le_min hmax (by linarith [hs.1]), min_le_left _ _⟩
  · rw [Tick_ThermalLift_clear cfg s dt h]
    exact ⟨le_max_left _ _, max_le hmax (by linarith [hs.2])⟩

theorem step_ThermalLift_between (cfg : GliderSettings) (s : GliderState) (e : Event)
    (hmax : 0 ≤ cfg.ThermalLiftMaxVelocity) (hacc : 0 ≤ cfg.ThermalLiftAcceleration)
    (he : e.timeOk) (hs : 0 ≤ s.ThermalLift ∧ s.ThermalLift ≤ cfg.ThermalLiftMaxVelocity) :
    0 ≤ (step cfg s e).ThermalLift ∧ (step cfg s e).ThermalLift ≤ cfg.ThermalLiftMaxVelocity := by
  cases e with
  | tick dt => exact Tick_ThermalLift_between cfg s dt hmax hacc he hs
  | beginOverlap thermal => exact hs
  | endOverlap thermal => exact hs
  | moveUp Val => exact hs
  | moveRight Val => exact hs

theorem run_ThermalLift_between (cfg : GliderSettings) (es : List Event)
    (hmax : 0 ≤ cfg.ThermalLiftMaxVelocity) (hacc : 0 ≤ cfg.ThermalLiftAcceleration) :
    ∀ s : GliderState, (∀ e ∈ es, e.timeOk) →
      (0 ≤ s.ThermalLift ∧ s.ThermalLift ≤ cfg.ThermalLiftMaxVelocity) →
      0 ≤ (run cfg s es).ThermalLift ∧ (run cfg s es).ThermalLift ≤ cfg.ThermalLiftMaxVelocity := by
  induction es with
  | nil => intro s _ hs; exact hs
  | cons e es ih =>
    intro s hes hs
    have he : e.timeOk := hes e (List.mem_cons_self e es)
    have hrest : ∀ e2 ∈ es, e2.timeOk := fun e2 h2 => hes e2 (List.mem_cons_of_mem e h2)
    exact ih (step cfg s e) hrest (step_ThermalLift_between cfg s e hmax hacc he hs)

/-! ## The recorded thermals -/

theorem filter_ne_length (l : List AActor) (t : AActor) :
    ((l.filter (fun a => !(a == t))).length : Int) = (l.length : Int) - (l.count t : Int) := by
  induction l with
  | nil => simp
  | cons a l ih =>
    by_cases h : a = t
    · subst h
      simp only [List.filter_cons, beq_self_eq_true, Bool.not_true, List.length_cons,
        List.count_cons_self, Nat.cast_succ]
      rw [if_neg (by simp), ih]; ring
    · have h2 : (a == t) = false := beq_false_of_ne h
      have h3 : List.count t (a :: l) = List.count t l := by
        simp [List.count_cons, h]
      simp only [List.filter_cons, h2, Bool.not_false, if_true, List.length_cons, h3,
        Nat.cast_succ]
      rw [ih]; ring

theorem filter_ne_of_not_mem (l : List AActor) (t : AActor) (h : t ∉ l) :
    l.filter (fun a => !(a == t)) = l := by
  rw [List.filter_eq_self]
  intro a ha
  have hne : a ≠ t := fun e => h (e ▸ ha)
  simp [hne]

theorem filter_ne_append_self (l : List AActor) (t : AActor) :
    (l ++ [t] ++ [t]).filter (fun a => !(a == t)) = l.filter (fun a => !(a == t)) := by
  simp [List.filter_append]

/-! ## Binary32 rounding: the facts used below -/

theorem roundNE_intCast (n : ℤ) : roundNE (n : ℚ) = n := by
  unfold roundNE
  rw [Int.floor_intCast, sub_self, if_pos (by norm_num)]

theorem floor_le_roundNE (y : ℚ) : ⌊y⌋ ≤ roundNE y := by
  unfold roundNE
  split_ifs <;> omega

theorem roundNE_le_floor_add_one (y : ℚ) : roundNE y ≤ ⌊y⌋ + 1 := by
  unfold roundNE
  split_ifs <;> omega

theorem roundNE_mono {x y : ℚ} (h : x ≤ y) : roundNE x ≤ roundNE y := by
  have hf : ⌊x⌋ ≤ ⌊y⌋ := Int.floor_mono h
  rcases lt_or_eq_of_le hf with hlt | heq
  · calc roundNE x ≤ ⌊x⌋ + 1 := roundNE_le_floor_add_one x
      _ ≤ ⌊y⌋ := hlt
      _ ≤ roundNE y := floor_le_roundNE y
  · have hxy : x - (⌊x⌋ : ℚ) ≤ y - (⌊y⌋ : ℚ) := by rw [heq]; linarith
    unfold roundNE
    rw [heq]
    rw [heq] at hxy
    split_ifs <;> first | omega | (exfalso; linarith)

theorem roundNE_eq_of_near (y : ℚ) (n : ℤ) (h1 : (n : ℚ) - 1 / 2 < y) (h2 : y < n + 1 / 2) :
    roundNE y = n := by
  have hfl : ⌊y⌋ = n ∨ ⌊y⌋ = n - 1 := by
    have a : n - 1 ≤ ⌊y⌋ := by
      rw [Int.le_floor]; push_cast; linarith
    have b : ⌊y⌋ < n + 1 := by
      rw [Int.floor_lt]; push_cast; linarith
    omega
  unfold roundNE
  rcases hfl with h | h
  · rw [h, if_pos (by linarith)]
  · have hy : (n : ℚ) - 1 ≤ y := by
      have := Int.floor_le y
      rw [h] at this; push_cast at this; exact this
    rw [h]
    push_cast
    rw [if_neg (by linarith), if_pos (by linarith)]
    ring

theorem roundNE_tie_even (y : ℚ) (n : ℤ) (hn : n % 2 = 0)
    (h : y = n + 1 / 2 ∨ y = n - 1 / 2) : roundNE y = n := by
  rcases h with h | h
  · have hfl : ⌊y⌋ = n := by
      rw [Int.floor_eq_iff]; constructor <;> linarith
    unfold roundNE
    rw [hfl, if_neg (by linarith), if_neg (by linarith), if_pos hn]
  · have hfl : ⌊y⌋ = n - 1 := by
      rw [Int.floor_eq_iff]; push_cast; constructor <;> linarith
    unfold roundNE
    rw [hfl]; push_cast
    rw [if_neg (by linarith), if_neg (by linarith), if_neg (by omega)]
    ring



theorem log_two_eq (x : ℚ) (e : ℤ) (hx : 0 < x) (h1 : (2 : ℚ) ^ e ≤ x) (h2 : x < (2 : ℚ) ^ (e + 1)) :
    Int.log 2 x = e := by
  have a : e ≤ Int.log 2 x := by
    rw [← Int.zpow_le_iff_le_log (by norm_num) hx]
    simpa using h1
  have b : Int.log 2 x < e + 1 := by
    rw [← Int.lt_zpow_iff_log_lt (by norm_num) hx]
    simpa using h2
  omega

theorem zpow_log_le (x : ℚ) (hx : 0 < x) : (2 : ℚ) ^ Int.log 2 x ≤ x := by
  simpa using Int.zpow_log_le_self (b := 2) (r := x) (by norm_num) hx

theorem lt_zpow_log_succ (x : ℚ) : x < (2 : ℚ) ^ (Int.log 2 x + 1) := by
  simpa using Int.lt_zpow_succ_log_self (b := 2) (by norm_num) x

theorem f32pos_eval (x : ℚ) (e n : ℤ) (hx : 0 < x) (h1 : (2 : ℚ) ^ e ≤ x)
    (h2 : x < (2 : ℚ) ^ (e + 1)) (hr : roundNE (x / (2 : ℚ) ^ (e - 23)) = n) :
    f32pos x = (n : ℚ) * (2 : ℚ) ^ (e - 23) := by
  unfold f32pos
  rw [log_two_eq x e hx h1 h2, hr]

theorem f32pos_zero : f32pos 0 = 0 := by
  unfold f32pos
  rw [zero_div]
  have : roundNE 0 = 0 := by simpa using roundNE_intCast 0
  rw [this]; simp

theorem two_zpow_pos (e : ℤ) : (0 : ℚ) < (2 : ℚ) ^ e := zpow_pos (by norm_num) e

theorem zpow_split_low (L : ℤ) :
    (2 : ℚ) ^ L = ((2 ^ 23 : ℤ) : ℚ) * (2 : ℚ) ^ (L - 23) := by
  have h : (2 : ℚ) ^ L = (2 : ℚ) ^ (23 : ℤ) * (2 : ℚ) ^ (L - 23) := by
    rw [← zpow_add₀ (by norm_num : (2 : ℚ) ≠ 0)]; congr 1; ring
  rw [h]; norm_num

theorem zpow_split_high (L : ℤ) :
    (2 : ℚ) ^ (L + 1) = ((2 ^ 24 : ℤ) : ℚ) * (2 : ℚ) ^ (L - 23) := by
  have h : (2 : ℚ) ^ (L + 1) = (2 : ℚ) ^ (24 : ℤ) * (2 : ℚ) ^ (L - 23) := by
    rw [← zpow_add₀ (by norm_num : (2 : ℚ) ≠ 0)]; congr 1; ring
  rw [h]; norm_num

theorem scaled_between (x : ℚ) (hx : 0 < x) :
    ((2 ^ 23 : ℤ) : ℚ) ≤ x / (2 : ℚ) ^ (Int.log 2 x - 23)
      ∧ x / (2 : ℚ) ^ (Int.log 2 x - 23) ≤ ((2 ^ 24 : ℤ) : ℚ) := by
  have hq := two_zpow_pos (Int.log 2 x - 23)
  have h1 := zpow_log_le x hx
  have h2 := lt_zpow_log_succ x
  have e1 := zpow_split_low (Int.log 2 x)
  have e2 := zpow_split_high (Int.log 2 x)
  constructor
  · rw [le_div_iff₀ hq, ← e1]; exact h1
  · rw [div_le_iff₀ hq, ← e2]; exact le_of_lt h2

theorem f32pos_between (x : ℚ) (hx : 0 < x) :
    (2 : ℚ) ^ Int.log 2 x ≤ f32pos x ∧ f32pos x ≤ (2 : ℚ) ^ (Int.log 2 x + 1) := by
  have hq := two_zpow_pos (Int.log 2 x - 23)
  obtain ⟨a, b⟩ := scaled_between x hx
  have ra : (2 ^ 23 : ℤ) ≤ roundNE (x / (2 : ℚ) ^ (Int.log 2 x - 23)) := by
    have := roundNE_mono a
    rwa [roundNE_intCast] at this
  have rb : roundNE (x / (2 : ℚ) ^ (Int.log 2 x - 23)) ≤ (2 ^ 24 : ℤ) := by
    have := roundNE_mono b
    rwa [roundNE_intCast] at this
  have e1 := zpow_split_low (Int.log 2 x)
  have e2 := zpow_split_high (Int.log 2 x)
  unfold f32pos
  rw [e1, e2]
  constructor
  · exact mul_le_mul_of_nonneg_right (by exact_mod_cast ra) (le_of_lt hq)
  · exact mul_le_mul_of_nonneg_right (by exact_mod_cast rb) (le_of_lt hq)

theorem f32pos_mono_pos {x y : ℚ} (hx : 0 < x) (h : x ≤ y) : f32pos x ≤ f32pos y := by
  have hy : 0 < y := lt_of_lt_of_le hx h
  have hl : Int.log 2 x ≤ Int.log 2 y := Int.log_mono_right hx h
  rcases lt_or_eq_of_le hl with hlt | heq
  · calc f32pos x ≤ (2 : ℚ) ^ (Int.log 2 x + 1) := (f32pos_between x hx).2
      _ ≤ (2 : ℚ) ^ Int.log 2 y := zpow_le_zpow_right₀ (by norm_num) (by omega)
      _ ≤ f32pos y := (f32pos_between y hy).1
  · unfold f32pos
    rw [← heq]
    have hq := two_zpow_pos (Int.log 2 x - 23)
    apply mul_le_mul_of_nonneg_right _ (le_of_lt hq)
    have : roundNE (x / (2 : ℚ) ^ (Int.log 2 x - 23)) ≤ roundNE (y / (2 : ℚ) ^ (Int.log 2 x - 23)) :=
      roundNE_mono (div_le_div_of_nonneg_right h (le_of_lt hq))
    exact_mod_cast this

theorem f32pos_nonneg (x : ℚ) (hx : 0 ≤ x) : 0 ≤ f32pos x := by
  rcases lt_or_eq_of_le hx with h | h
  · exact le_trans (le_of_lt (two_zpow_pos _)) (f32pos_between x h).1
  · rw [← h, f32pos_zero]

theorem f32pos_mono {x y : ℚ} (hx : 0 ≤ x) (h : x ≤ y) : f32pos x ≤ f32pos y := by
  rcases lt_or_eq_of_le hx with h0 | h0
  · exact f32pos_mono_pos h0 h
  · rw [← h0, f32pos_zero]; exact f32pos_nonneg y (le_trans hx h)

theorem f32_zero : f32 0 = 0 := by
  unfold f32
  rw [if_neg (lt_irrefl 0), f32pos_zero]

theorem f32_mono : Monotone f32 := by
  intro x y h
  unfold f32
  split_ifs with hx hy hy
  · have := f32pos_mono (x := -y) (y := -x) (by linarith) (by linarith)
    linarith
  · have h1 := f32pos_nonneg (-x) (by linarith)
    have h2 := f32pos_nonneg y (by linarith)
    linarith
  · exfalso; linarith
  · exact f32pos_mono (by linarith) h

theorem f32_neg (x : ℚ) : f32 (-x) = -f32 x := by
  unfold f32
  rcases lt_trichotomy x 0 with h | h | h
  · rw [if_neg (by linarith), if_pos h, neg_neg]
  · rw [h]; simp [f32pos_zero]
  · rw [if_pos (by linarith), if_neg (by linarith), neg_neg]


theorem f32pos_idem (x : ℚ) (hx : 0 < x) : f32pos (f32pos x) = f32pos x := by
  have hq := two_zpow_pos (Int.log 2 x - 23)
  obtain ⟨a, b⟩ := scaled_between x hx
  have ra : (2 ^ 23 : ℤ) ≤ roundNE (x / (2 : ℚ) ^ (Int.log 2 x - 23)) := by
    have := roundNE_mono a
    rwa [roundNE_intCast] at this
  have rb : roundNE (x / (2 : ℚ) ^ (Int.log 2 x - 23)) ≤ (2 ^ 24 : ℤ) := by
    have := roundNE_mono b
    rwa [roundNE_intCast] at this
  have hy : f32pos x
      = (roundNE (x / (2 : ℚ) ^ (Int.log 2 x - 23)) : ℚ) * (2 : ℚ) ^ (Int.log 2 x - 23) := rfl
  have hpos : 0 < f32pos x := lt_of_lt_of_le (two_zpow_pos _) (f32pos_between x hx).1
  rcases lt_or_eq_of_le rb with hlt | heq
  · have hlt2 : f32pos x < (2 : ℚ) ^ (Int.log 2 x + 1) := by
      rw [zpow_split_high, hy]
      exact mul_lt_mul_of_pos_right (by exact_mod_cast hlt) hq
    have hr : roundNE (f32pos x / (2 : ℚ) ^ (Int.log 2 x - 23))
        = roundNE (x / (2 : ℚ) ^ (Int.log 2 x - 23)) := by
      rw [hy, mul_div_assoc, div_self (ne_of_gt hq), mul_one, roundNE_intCast]
    rw [f32pos_eval (f32pos x) (Int.log 2 x) (roundNE (x / (2 : ℚ) ^ (Int.log 2 x - 23))) hpos
      (f32pos_between x hx).1 hlt2 hr]
    exact hy.symm
  · have hval : f32pos x = (2 : ℚ) ^ (Int.log 2 x + 1) := by
      rw [zpow_split_high, hy, heq]
    have hq2 := two_zpow_pos (Int.log 2 x + 1 - 23)
    rw [hval]
    have hr : roundNE ((2 : ℚ) ^ (Int.log 2 x + 1) / (2 : ℚ) ^ (Int.log 2 x + 1 - 23))
        = 2 ^ 23 := by
      rw [zpow_split_low (Int.log 2 x + 1), mul_div_assoc, div_self (ne_of_gt hq2), mul_one,
        roundNE_intCast]
    rw [f32pos_eval ((2 : ℚ) ^ (Int.log 2 x + 1)) (Int.log 2 x + 1) (2 ^ 23)
      (two_zpow_pos _) (le_refl _)
      (zpow_lt_zpow_right₀ (by norm_num) (by omega)) hr]
    exact (zpow_split_low _).symm

theorem f32_idem (x : ℚ) : f32 (f32 x) = f32 x := by
  rcases lt_trichotomy x 0 with h | h | h
  · have hpos : 0 < f32pos (-x) :=
      lt_of_lt_of_le (two_zpow_pos _) (f32pos_between (-x) (by linarith)).1
    have e : f32 x = -f32pos (-x) := by unfold f32; rw [if_pos h]
    rw [e, f32_neg]
    have e2 : f32 (f32pos (-x)) = f32pos (f32pos (-x)) := by
      unfold f32; rw [if_neg (by linarith)]
    rw [e2, f32pos_idem _ (by linarith)]
  · rw [h, f32_zero, f32_zero]
  · have hpos : 0 < f32pos x := lt_of_lt_of_le (two_zpow_pos _) (f32pos_between x h).1
    have e : f32 x = f32pos x := by unfold f32; rw [if_neg (by linarith)]
    rw [e]
    have e2 : f32 (f32pos x) = f32pos (f32pos x) := by
      unfold f32; rw [if_neg (by linarith)]
    rw [e2, f32pos_idem _ h]

theorem f32_eval_neg (x : ℚ) (e n : ℤ) (hx : x < 0) (h1 : (2 : ℚ) ^ e ≤ -x)
    (h2 : -x < (2 : ℚ) ^ (e + 1)) (hn1 : (n : ℚ) - 1 / 2 < -x / (2 : ℚ) ^ (e - 23))
    (hn2 : -x / (2 : ℚ) ^ (e - 23) < n + 1 / 2) : f32 x = -((n : ℚ) * (2 : ℚ) ^ (e - 23)) := by
  unfold f32
  rw [if_pos hx, f32pos_eval (-x) e n (by linarith) h1 h2 (roundNE_eq_of_near _ n hn1 hn2)]

theorem f32_eval_tie (x : ℚ) (e n : ℤ) (hx : 0 < x) (h1 : (2 : ℚ) ^ e ≤ x)
    (h2 : x < (2 : ℚ) ^ (e + 1)) (hn : n % 2 = 0)
    (ht : x / (2 : ℚ) ^ (e - 23) = n + 1 / 2 ∨ x / (2 : ℚ) ^ (e - 23) = n - 1 / 2) :
    f32 x = (n : ℚ) * (2 : ℚ) ^ (e - 23) := by
  unfold f32
  rw [if_neg (by linarith), f32pos_eval x e n hx h1 h2 (roundNE_tie_even _ n hn ht)]

theorem f32_fix (x : ℚ) (e n : ℤ) (hx : 0 < x) (h1 : (2 : ℚ) ^ e ≤ x)
    (h2 : x < (2 : ℚ) ^ (e + 1)) (hn : x = (n : ℚ) * (2 : ℚ) ^ (e - 23)) : f32 x = x := by
  have hq := two_zpow_pos (e - 23)
  have hr : roundNE (x / (2 : ℚ) ^ (e - 23)) = n := by
    rw [hn, mul_div_assoc, div_self (ne_of_gt hq), mul_one, roundNE_intCast]
  unfold f32
  rw [if_neg (by linarith), f32pos_eval x e n hx h1 h2 hr, ← hn]

theorem f32_isRounding : IsRounding f32 :=
  ⟨f32_mono, f32_zero, f32_idem⟩

theorem id_isRounding : IsRounding id :=
  ⟨monotone_id, rfl, fun _ => rfl⟩

/-! ## Rounded arithmetic: a lerp stays between its start and its full step -/

theorem FMath.LerpR_zero (fl : ℚ → ℚ) (hfl : IsRounding fl) (A B : ℚ) (hA : fl A = A) :
    FMath.LerpR fl A B 0 = A := by
  unfold FMath.LerpR
  rw [zero_mul, hfl.2.1, add_zero, hA]

theorem FMath.LerpR_self (fl : ℚ → ℚ) (hfl : IsRounding fl) (A Alpha : ℚ) (hA : fl A = A) :
    FMath.LerpR fl A A Alpha = A := by
  unfold FMath.LerpR
  rw [sub_self, hfl.2.1, mul_zero, hfl.2.1, add_zero, hA]

theorem FMath.LerpR_between_full (fl : ℚ → ℚ) (hfl : IsRounding fl) (A B Alpha : ℚ)
    (hA : fl A = A) (h0 : 0 ≤ Alpha) (h1 : Alpha ≤ 1) :
    min A (FMath.LerpR fl A B 1) ≤ FMath.LerpR fl A B Alpha
      ∧ FMath.LerpR fl A B Alpha ≤ max A (FMath.LerpR fl A B 1) := by
  obtain ⟨hmono, hzero, _⟩ := hfl
  unfold FMath.LerpR
  rcases le_total 0 (fl (B - A)) with hd | hd
  · have p0 : 0 ≤ fl (Alpha * fl (B - A)) := by
      have := hmono (mul_nonneg h0 hd)
      rwa [hzero] at this
    have p1 : fl (Alpha * fl (B - A)) ≤ fl (1 * fl (B - A)) :=
      hmono (mul_le_mul_of_nonneg_right h1 hd)
    have lo : A ≤ fl (A + fl (Alpha * fl (B - A))) := by
      have := hmono (show A ≤ A + fl (Alpha * fl (B - A)) by linarith)
      rwa [hA] at this
    have hi : fl (A + fl (Alpha * fl (B - A))) ≤ fl (A + fl (1 * fl (B - A))) :=
      hmono (by linarith)
    exact ⟨le_trans (min_le_left _ _) lo, le_trans hi (le_max_right _ _)⟩
  · have p0 : fl (Alpha * fl (B - A)) ≤ 0 := by
      have := hmono (mul_nonpos_of_nonneg_of_nonpos h0 hd)
      rwa [hzero] at this
    have p1 : fl (1 * fl (B - A)) ≤ fl (Alpha * fl (B - A)) :=
      hmono (by nlinarith)
    have hi : fl (A + fl (Alpha * fl (B - A))) ≤ A := by
      have := hmono (show A + fl (Alpha * fl (B - A)) ≤ A by linarith)
      rwa [hA] at this
    have lo : fl (A + fl (1 * fl (B - A))) ≤ fl (A + fl (Alpha * fl (B - A))) :=
      hmono (by linarith)
    exact ⟨le_trans (min_le_right _ _) lo, le_trans hi (le_max_left _ _)⟩

theorem SlewTowardR_eq_LerpR (fl : ℚ → ℚ) (current target min max : ℚ) (curve : UCurveFloat)
    (dt : ℚ) :
    SlewTowardR fl current target min max curve dt =
      FMath.LerpR fl current target
        (fl (curve.GetFloatValue (amountToLimitR fl current target min max) * dt)) :=
  rfl

theorem TickR_NeutralPitch (fl : ℚ → ℚ) (cfg : GliderSettings) (s : GliderState) (dt : ℚ) :
    (TickR fl cfg s dt).1.NeutralPitch =
      fl (cfg.NeutralPitchByVelocityCurve.GetFloatValue s.Velocity
        + cfg.NeutralPitchByRollCurve.GetFloatValue (FMath.Abs s.Roll)) :=
  rfl

theorem TickR_SlewedInputPitch (fl : ℚ → ℚ) (cfg : GliderSettings) (s : GliderState) (dt : ℚ) :
    (TickR fl cfg s dt).1.SlewedInputPitch =
      if FMath.IsNearlyZeroR fl s.UpInputAxis then
        FMath.LerpR fl s.SlewedInputPitch (inputPitchR fl cfg s) (fl (cfg.PitchNoInputSlew * dt))
      else
        SlewTowardR fl s.SlewedInputPitch (inputPitchR fl cfg s) cfg.MinPitch
          (cfg.MaxPitchByVelocityCurve.GetFloatValue s.Velocity)
          cfg.PitchInputSlewByAmountToLimitCurve dt :=
  rfl

theorem TickR_id (cfg : GliderSettings) (s : GliderState) (dt : ℚ) :
    TickR id cfg s dt = Tick cfg s dt :=
  rfl

theorem SlewTowardR_id (current target min max : ℚ) (curve : UCurveFloat) (dt : ℚ) :
    SlewTowardR id current target min max curve dt = SlewToward current target min max curve dt :=
  rfl

theorem FMath.LerpR_id_one (A B : ℚ) : FMath.LerpR id A B 1 = B := by
  simp [FMath.LerpR]

/-! ## Binary32 rounding of the numbers in the examples -/

theorem f32_one : f32 1 = 1 :=
  f32_fix 1 0 8388608 (by norm_num) (by norm_num) (by norm_num) (by norm_num)

theorem f32_neg_44_8 : f32 (-224 / 5) = -11744051 / 262144 := by
  rw [f32_eval_neg (-224 / 5) 5 11744051 (by norm_num) (by norm_num) (by norm_num)
    (by norm_num) (by norm_num)]
  norm_num

theorem f32_neg_44_8_fix : f32 (-11744051 / 262144) = -11744051 / 262144 := by
  have h := f32_idem (-224 / 5)
  rwa [f32_neg_44_8] at h

theorem f32_44_8_fix : f32 (11744051 / 262144) = 11744051 / 262144 :=
  f32_fix _ 5 11744051 (by norm_num) (by norm_num) (by norm_num) (by norm_num)

theorem f32_span : f32 (23540531 / 262144) = 5885133 / 65536 := by
  rw [f32_eval_tie _ 6 11770266 (by norm_num) (by norm_num) (by norm_num) (by norm_num)
    (Or.inr (by norm_num))]
  norm_num

theorem f32_span_fix : f32 (5885133 / 65536) = 5885133 / 65536 := by
  have h := f32_idem (23540531 / 262144)
  rwa [f32_span] at h

theorem f32_past_45 : f32 (11796481 / 262144) = 11796481 / 262144 :=
  f32_fix _ 5 11796481 (by norm_num) (by norm_num) (by norm_num) (by norm_num)

theorem SlewTowardR_f32_past_target :
    SlewTowardR f32 (-11744051 / 262144) 45 (-45) 45 ⟨fun _ => 1⟩ 1 = 11796481 / 262144 := by
  norm_num [SlewTowardR, FMath.LerpR, f32_one, f32_span, f32_span_fix, f32_past_45]

/-- C1: for every value `v` (and every prior state), `MoveUpInput v` stores `clamp(v, -1, 1)`,
written `max (-1) (min v 1)`, in `UpInputAxis`, and `MoveRightInput v` stores it in
`RightInputAxis`; the stored axis lies in `[-1, 1]`, and it is `v` itself when `v` already lies
in `[-1, 1]`. -/
theorem C1_axis_clamp (s : GliderState) (v : ℚ) :
    (MoveUpInput s v).UpInputAxis = max (-1) (min v 1)
      ∧ (MoveRightInput s v).RightInputAxis = max (-1) (min v 1)
      ∧ (-1 ≤ (MoveUpInput s v).UpInputAxis ∧ (MoveUpInput s v).UpInputAxis ≤ 1)
      ∧ (-1 ≤ (MoveRightInput s v).RightInputAxis ∧ (MoveRightInput s v).RightInputAxis ≤ 1)
      ∧ (-1 ≤ v → v ≤ 1 →
          (MoveUpInput s v).UpInputAxis = v ∧ (MoveRightInput s v).RightInputAxis = v) := by
  have h : (-1 : ℚ) ≤ 1 := by norm_num
  refine ⟨FMath.Clamp_eq_max_min v (-1) 1 h, FMath.Clamp_eq_max_min v (-1) 1 h,
    FMath.Clamp_between v (-1) 1 h, FMath.Clamp_between v (-1) 1 h, ?_⟩
  intro h1 h2
  exact ⟨FMath.Clamp_of_between v (-1) 1 h1 h2, FMath.Clamp_of_between v (-1) 1 h1 h2⟩

/-- C1, at the value `5` and at the value `1/2` on a fresh glider: `5` is stored as `1`, and
`1/2`, which lies in `[-1, 1]`, is stored unchanged. -/
theorem C1_axis_clamp_witness :
    (MoveUpInput GliderState.initial 5).UpInputAxis = 1
      ∧ (-1 : ℚ) ≤ 1 / 2 ∧ (1 / 2 : ℚ) ≤ 1
      ∧ (MoveUpInput GliderState.initial (1 / 2)).UpInputAxis = 1 / 2
      ∧ (MoveRightInput GliderState.initial (1 / 2)).RightInputAxis = 1 / 2 := by
  refine ⟨?_, by norm_num, by norm_num, ?_, ?_⟩
  · rw [(C1_axis_clamp GliderState.initial 5).1]; norm_num
  · exact ((C1_axis_clamp GliderState.initial (1 / 2)).2.2.2.2 (by norm_num) (by norm_num)).1
  · exact ((C1_axis_clamp GliderState.initial (1 / 2)).2.2.2.2 (by norm_num) (by norm_num)).2

/-! ## C2: velocity bound -/

/-- C2: for every prior state, all settings (curves, constants, sine) and every `DeltaTime`
(non-negative or not), the `Velocity` stored by `Tick` lies in `[0.01, 1.0]`. -/
theorem C2_velocity_bound (cfg : GliderSettings) (s : GliderState) (DeltaTime : ℚ) :
    1 / 100 ≤ (Tick cfg s DeltaTime).1.Velocity ∧ (Tick cfg s DeltaTime).1.Velocity ≤ 1 := by
  rw [Tick_Velocity]
  exact FMath.Clamp_between _ _ _ (by norm_num)

/-! ## C3: yaw wrap -/

/-- C3: the code breaks the claim. `Tick` adds `360` to the new heading and takes `360` off
again whenever the sum is above `360`, so a heading above `0` is stored as it is and is never
brought back below `360`. (1) Prior `Yaw = 359`, level wings, a yaw rate of `2` and
`DeltaTime = 1`: the stored `Yaw` is `361`. (2) A fresh glider at rest (prior `Yaw = 0`, zero
yaw rate, `DeltaTime = 0`): the stored `Yaw` is `360`. (3) A yaw rate of `1000` with
`DeltaTime = 1`: the stored `Yaw` is `1000`. (4) A yaw rate of `-1000` with `DeltaTime = 1`:
the stored `Yaw` is `-640`. None of these lies in `[0, 360)`. -/
theorem C3_yaw_wrap_failing_input :
    ((0 : ℚ) ≤ 1 ∧ (Tick (constSettings 2 45 500 1000) (exampleState 359 0 0 []) 1).1.Yaw = 361
        ∧ ¬ (Tick (constSettings 2 45 500 1000) (exampleState 359 0 0 []) 1).1.Yaw < 360)
      ∧ ((0 : ℚ) ≤ 0 ∧ (Tick (constSettings 0 45 500 1000) GliderState.initial 0).1.Yaw = 360
        ∧ ¬ (Tick (constSettings 0 45 500 1000) GliderState.initial 0).1.Yaw < 360)
      ∧ ((0 : ℚ) ≤ 1 ∧ (Tick (constSettings 1000 45 500 1000) GliderState.initial 1).1.Yaw = 1000)
      ∧ ((0 : ℚ) ≤ 1
        ∧ (Tick (constSettings (-1000) 45 500 1000) GliderState.initial 1).1.Yaw = -640) := by
  have h0 : (Tick (constSettings 0 45 500 1000) GliderState.initial 0).1.Yaw = 360 := by
    norm_num [Tick, constSettings, GliderState.initial, SlewToward, FMath.Lerp,
      FMath.IsNearlyZero, FMath.Abs, FMath.SMALL_NUMBER]
  have h1 : (Tick (constSettings 2 45 500 1000) (exampleState 359 0 0 []) 1).1.Yaw = 361 := by
    norm_num [Tick, constSettings, exampleState, GliderState.initial, SlewToward, FMath.Lerp,
      FMath.IsNearlyZero, FMath.Abs, FMath.SMALL_NUMBER]
  refine ⟨⟨by norm_num, h1, ?_⟩, ⟨le_refl _, h0, ?_⟩, ⟨by norm_num, ?_⟩, ⟨by norm_num, ?_⟩⟩
  · rw [h1]; norm_num
  · rw [h0]; norm_num
  · norm_num [Tick, constSettings, GliderState.initial, SlewToward, FMath.Lerp,
      FMath.IsNearlyZero, FMath.Abs, FMath.SMALL_NUMBER]
  · norm_num [Tick, constSettings, GliderState.initial, SlewToward, FMath.Lerp,
      FMath.IsNearlyZero, FMath.Abs, FMath.SMALL_NUMBER]

/-! ## C4: roll bound -/

/-- C5: with `ThermalLiftMaxVelocity ≥ 0` and `ThermalLiftAcceleration ≥ 0`, in every state
reached from the initial state (`ThermalLift = 0`, no recorded thermal) by a sequence of `Tick`
calls with `DeltaTime ≥ 0`, thermal begin and end notifications and axis inputs,
`0 ≤ ThermalLift ≤ ThermalLiftMaxVelocity`. -/
theorem C5_thermal_lift_invariant (cfg : GliderSettings) (es : List Event)
    (hmax : 0 ≤ cfg.ThermalLiftMaxVelocity) (hacc : 0 ≤ cfg.ThermalLiftAcceleration)
    (hes : ∀ e ∈ es, e.timeOk) :
    0 ≤ (run cfg GliderState.initial es).ThermalLift
      ∧ (run cfg GliderState.initial es).ThermalLift ≤ cfg.ThermalLiftMaxVelocity :=
  run_ThermalLift_between cfg es hmax hacc GliderState.initial hes ⟨le_refl _, hmax⟩

/-- C5 on a run with ceiling `500` and acceleration `1000`: enter thermal `1`, a frame of `0.1`,
push the stick, leave the thermal, a frame of `1`; the lift ends in `[0, 500]`. -/
theorem C5_thermal_lift_invariant_witness :
    (∀ e ∈ [Event.beginOverlap 1, Event.tick (1 / 10), Event.moveUp 1, Event.endOverlap 1,
        Event.tick 1], e.timeOk)
      ∧ 0 ≤ (run (constSettings 0 45 500 1000) GliderState.initial
          [Event.beginOverlap 1, Event.tick (1 / 10), Event.moveUp 1, Event.endOverlap 1,
            Event.tick 1]).ThermalLift
      ∧ (run (constSettings 0 45 500 1000) GliderState.initial
          [Event.beginOverlap 1, Event.tick (1 / 10), Event.moveUp 1, Event.endOverlap 1,
            Event.tick 1]).ThermalLift ≤ 500 := by
  have hes : ∀ e ∈ [Event.beginOverlap 1, Event.tick (1 / 10), Event.moveUp 1,
      Event.endOverlap 1, Event.tick 1], e.timeOk := by
    intro e he
    simp only [List.mem_cons, List.mem_singleton, List.not_mem_nil, or_false] at he
    rcases he with h | h | h | h | h <;> subst h <;> simp [Event.timeOk]
  exact ⟨hes, C5_thermal_lift_invariant (constSettings 0 45 500 1000) _
    (by norm_num [constSettings]) (by norm_num [constSettings]) hes⟩

/-! ## C6: thermal lift moves at the fixed rate and saturates -/

/-- C7 fails as stated, with ceiling `500`, acceleration `1000` and `DeltaTime = 0`. (1) With a
thermal recorded and a prior lift of `-1000`, the `Tick` stores `-1000`, below `0`. (2) With no
thermal recorded and a prior lift of `1000`, the `Tick` stores `1000`, above the ceiling. -/
theorem C7_single_tick_clamp_counterexample :
    ((0 : ℚ) ≤ 500 ∧ (0 : ℚ) ≤ 1000 ∧ (0 : ℚ) ≤ 0)
      ∧ ((Tick (constSettings 0 45 500 1000) (exampleState 0 0 (-1000) [1]) 0).1.ThermalLift
            = -1000
        ∧ ¬ 0 ≤ (Tick (constSettings 0 45 500 1000) (exampleState 0 0 (-1000) [1]) 0).1.ThermalLift)
      ∧ ((Tick (constSettings 0 45 500 1000) (exampleState 0 0 1000 []) 0).1.ThermalLift = 1000
        ∧ ¬ (Tick (constSettings 0 45 500 1000) (exampleState 0 0 1000 []) 0).1.ThermalLift
            ≤ (constSettings 0 45 500 1000).ThermalLiftMaxVelocity) := by
  have h1 : (Tick (constSettings 0 45 500 1000) (exampleState 0 0 (-1000) [1]) 0).1.ThermalLift
      = -1000 := by
    norm_num [Tick_ThermalLift, GliderState.Num, constSettings, exampleState,
      GliderState.initial, FMath.Min]
  have h2 : (Tick (constSettings 0 45 500 1000) (exampleState 0 0 1000 []) 0).1.ThermalLift
      = 1000 := by
    norm_num [Tick_ThermalLift, GliderState.Num, constSettings, exampleState,
      GliderState.initial, FMath.Max]
  refine ⟨⟨by norm_num, by norm_num, le_refl _⟩, ⟨h1, ?_⟩, ⟨h2, ?_⟩⟩
  · rw [h1]; norm_num
  · rw [h2]; norm_num [constSettings]

/-- C7, amended: a single `Tick` clamps the thermal lift on one side per branch. For every
prior state, all settings and every `DeltaTime`: with a thermal recorded the stored lift is at
most `ThermalLiftMaxVelocity`, and with none recorded it is at least `0`. The other bound is
inherited: with `ThermalLiftMaxVelocity ≥ 0` and `ThermalLiftAcceleration * DeltaTime ≥ 0`,
under a recorded thermal a prior lift `≥ 0` gives a stored lift `≥ 0`, and with none recorded a
prior lift `≤ ThermalLiftMaxVelocity` gives a stored lift `≤ ThermalLiftMaxVelocity`. -/
theorem C7_single_tick_clamp_amended (cfg : GliderSettings) (s : GliderState) (DeltaTime : ℚ) :
    (s.Num > 0 → (Tick cfg s DeltaTime).1.ThermalLift ≤ cfg.ThermalLiftMaxVelocity)
      ∧ (s.Num = 0 → 0 ≤ (Tick cfg s DeltaTime).1.ThermalLift)
      ∧ (0 ≤ cfg.ThermalLiftMaxVelocity → 0 ≤ cfg.ThermalLiftAcceleration * DeltaTime →
          (s.Num > 0 → 0 ≤ s.ThermalLift → 0 ≤ (Tick cfg s DeltaTime).1.ThermalLift)
            ∧ (s.Num = 0 → s.ThermalLift ≤ cfg.ThermalLiftMaxVelocity →
                (Tick cfg s DeltaTime).1.ThermalLift ≤ cfg.ThermalLiftMaxVelocity)) := by
  refine ⟨fun h => ?_, fun h => ?_, fun hmax hstep => ⟨fun h h0 => ?_, fun h h1 => ?_⟩⟩
  · rw [Tick_ThermalLift_overlap cfg s DeltaTime h]
    exact min_le_left _ _
  · rw [Tick_ThermalLift_clear cfg s DeltaTime (by rw [h]; exact lt_irrefl 0)]
    exact le_max_left _ _
  · rw [Tick_ThermalLift_overlap cfg s DeltaTime h]
    exact le_min hmax (by linarith)
  · rw [Tick_ThermalLift_clear cfg s DeltaTime (by rw [h]; exact lt_irrefl 0)]
    exact max_le hmax (by linarith)

/-- C7, amended, on the two states of the counterexample, with a frame of `0.1`: the lift of
`-1000` under a thermal is stored as `-900`, below the ceiling `500`, and the lift of `1000`
with no thermal is stored as `900`, above `0`; and a lift of `100` under a thermal, with ceiling
`500 ≥ 0` and step `1000 * 0.1 ≥ 0`, is stored as a lift `≥ 0`. -/
theorem C7_single_tick_clamp_amended_witness :
    (Tick (constSettings 0 45 500 1000) (exampleState 0 0 (-1000) [1]) (1 / 10)).1.ThermalLift
        ≤ 500
      ∧ 0 ≤ (Tick (constSettings 0 45 500 1000) (exampleState 0 0 1000 [])
          (1 / 10)).1.ThermalLift
      ∧ 0 ≤ (Tick (constSettings 0 45 500 1000) (exampleState 0 0 100 [1])
          (1 / 10)).1.ThermalLift :=
  ⟨(C7_single_tick_clamp_amended (constSettings 0 45 500 1000) (exampleState 0 0 (-1000) [1])
      (1 / 10)).1 (by norm_num [GliderState.Num, exampleState]),
   (C7_single_tick_clamp_amended (constSettings 0 45 500 1000) (exampleState 0 0 1000 [])
      (1 / 10)).2.1 (by norm_num [GliderState.Num, exampleState, GliderState.initial]),
   ((C7_single_tick_clamp_amended (constSettings 0 45 500 1000) (exampleState 0 0 100 [1])
      (1 / 10)).2.2 (by norm_num [constSettings]) (by norm_num [constSettings])).1
      (by norm_num [GliderState.Num, exampleState]) (by norm_num [exampleState])⟩

/-! ## C8: entering a thermal -/

/-- C8: for every prior state and every thermal, recorded already or not,
`NotifyThermalBeginOverlap` raises `OverlappingThermals.Num()` by exactly one (so entering the
same thermal twice raises it by two) and leaves every other field of the state as it was. -/
theorem C8_begin_overlap_counts (s : GliderState) (thermal : AActor) :
    (NotifyThermalBeginOverlap s thermal).Num = s.Num + 1
      ∧ (NotifyThermalBeginOverlap (NotifyThermalBeginOverlap s thermal) thermal).Num = s.Num + 2
      ∧ (NotifyThermalBeginOverlap s thermal).OverlappingThermals
          = s.OverlappingThermals ++ [thermal]
      ∧ (NotifyThermalBeginOverlap s thermal).DebugStateString = s.DebugStateString
      ∧ (NotifyThermalBeginOverlap s thermal).ThermalLift = s.ThermalLift
      ∧ (NotifyThermalBeginOverlap s thermal).NeutralPitch = s.NeutralPitch
      ∧ (NotifyThermalBeginOverlap s thermal).SlewedInputPitch = s.SlewedInputPitch
      ∧ (NotifyThermalBeginOverlap s thermal).Pitch = s.Pitch
      ∧ (NotifyThermalBeginOverlap s thermal).SlewedInputRoll = s.SlewedInputRoll
      ∧ (NotifyThermalBeginOverlap s thermal).Roll = s.Roll
      ∧ (NotifyThermalBeginOverlap s thermal).Yaw = s.Yaw
      ∧ (NotifyThermalBeginOverlap s thermal).TargetVelocity = s.TargetVelocity
      ∧ (NotifyThermalBeginOverlap s thermal).Velocity = s.Velocity
      ∧ (NotifyThermalBeginOverlap s thermal).RightInputAxis = s.RightInputAxis
      ∧ (NotifyThermalBeginOverlap s thermal).UpInputAxis = s.UpInputAxis := by
  refine ⟨?_, ?_, rfl, rfl, rfl, rfl, rfl, rfl, rfl, rfl, rfl, rfl, rfl, rfl, rfl⟩
  · simp [GliderState.Num, NotifyThermalBeginOverlap]
  · simp only [GliderState.Num, NotifyThermalBeginOverlap, List.length_append,
      List.length_singleton, Nat.cast_add, Nat.cast_one]
    ring

/-! ## C9: leaving a thermal -/

/-- C9 fails as stated: after thermal `7` is entered twice on a fresh glider it is recorded and
the count is `2`; one `NotifyThermalEndOverlap 7` leaves a count of `0`, not `2 - 1 = 1`. -/
theorem C9_end_overlap_counterexample :
    7 ∈ (NotifyThermalBeginOverlap (NotifyThermalBeginOverlap GliderState.initial 7)
        7).OverlappingThermals
      ∧ (NotifyThermalBeginOverlap (NotifyThermalBeginOverlap GliderState.initial 7) 7).Num = 2
      ∧ (NotifyThermalEndOverlap
          (NotifyThermalBeginOverlap (NotifyThermalBeginOverlap GliderState.initial 7) 7) 7).Num
          = 0
      ∧ (NotifyThermalEndOverlap
          (NotifyThermalBeginOverlap (NotifyThermalBeginOverlap GliderState.initial 7) 7) 7).Num
          ≠ (NotifyThermalBeginOverlap (NotifyThermalBeginOverlap GliderState.initial 7) 7).Num
              - 1 := by
  decide

/-- C9, amended: `NotifyThermalEndOverlap` removes every recorded occurrence of the thermal.
For every state, the count after the call is the count before minus the number of times the
thermal is recorded; it is the count before minus `1` exactly when the thermal is recorded
once; and two enters of a thermal followed by one exit leave the state that the exit alone
leaves. -/
theorem C9_end_overlap_amended (s : GliderState) (thermal : AActor) :
    (NotifyThermalEndOverlap s thermal).Num
        = s.Num - (s.OverlappingThermals.count thermal : Int)
      ∧ ((NotifyThermalEndOverlap s thermal).Num = s.Num - 1
          ↔ s.OverlappingThermals.count thermal = 1)
      ∧ NotifyThermalEndOverlap
          (NotifyThermalBeginOverlap (NotifyThermalBeginOverlap s thermal) thermal) thermal
          = NotifyThermalEndOverlap s thermal := by
  have h : (NotifyThermalEndOverlap s thermal).Num
      = s.Num - (s.OverlappingThermals.count thermal : Int) :=
    filter_ne_length s.OverlappingThermals thermal
  refine ⟨h, ?_, ?_⟩
  · rw [h]
    constructor
    · intro h1
      have : (s.OverlappingThermals.count thermal : Int) = 1 := by linarith
      exact_mod_cast this
    · intro h1
      rw [h1]; rfl
  · simp only [NotifyThermalEndOverlap, NotifyThermalBeginOverlap]
    rw [filter_ne_append_self]

/-! ## C10: the count is never negative, and an unmatched exit changes nothing -/

/-- C10: along every sequence of calls (thermal notifications, and frames and axis inputs as
well) from every state the overlap count is `≥ 0`; and `NotifyThermalEndOverlap` for a thermal
that is not recorded, in particular whenever the count is `0`, returns the state unchanged, so
the recorded thermals and the count are as before. -/
theorem C10_unmatched_exit (cfg : GliderSettings) (s : GliderState) (es : List Event)
    (thermal : AActor) :
    0 ≤ (run cfg s es).Num
      ∧ (thermal ∉ s.OverlappingThermals →
          NotifyThermalEndOverlap s thermal = s
            ∧ (NotifyThermalEndOverlap s thermal).OverlappingThermals = s.OverlappingThermals
            ∧ (NotifyThermalEndOverlap s thermal).Num = s.Num)
      ∧ (s.Num = 0 →
          NotifyThermalEndOverlap s thermal = s ∧ (NotifyThermalEndOverlap s thermal).Num = 0) := by
  have key : thermal ∉ s.OverlappingThermals → NotifyThermalEndOverlap s thermal = s := by
    intro h
    unfold NotifyThermalEndOverlap
    rw [filter_ne_of_not_mem _ _ h]
  refine ⟨Int.natCast_nonneg _, fun h => ?_, fun h => ?_⟩
  · rw [key h]; exact ⟨rfl, rfl, rfl⟩
  · have hnil : s.OverlappingThermals = [] := by
      have : s.OverlappingThermals.length = 0 := by
        unfold GliderState.Num at h
        exact_mod_cast h
      exact List.length_eq_zero.mp this
    have hmem : thermal ∉ s.OverlappingThermals := by rw [hnil]; exact List.not_mem_nil _
    rw [key hmem]; exact ⟨rfl, h⟩

/-- C10 on a fresh glider: thermal `3` is not recorded and the count is `0`; an exit of thermal
`3` returns the fresh state, and after an enter of thermal `5` an exit of thermal `3` still
changes nothing. -/
theorem C10_unmatched_exit_witness :
    3 ∉ GliderState.initial.OverlappingThermals
      ∧ NotifyThermalEndOverlap GliderState.initial 3 = GliderState.initial
      ∧ (NotifyThermalEndOverlap GliderState.initial 3).Num = 0
      ∧ 3 ∉ (NotifyThermalBeginOverlap GliderState.initial 5).OverlappingThermals
      ∧ (NotifyThermalEndOverlap (NotifyThermalBeginOverlap GliderState.initial 5) 3).Num = 1 := by
  have h1 : 3 ∉ GliderState.initial.OverlappingThermals := by decide
  have h2 : 3 ∉ (NotifyThermalBeginOverlap GliderState.initial 5).OverlappingThermals := by
    decide
  have a := (C10_unmatched_exit (constSettings 0 45 500 1000) GliderState.initial [] 3).2.1 h1
  have b := (C10_unmatched_exit (constSettings 0 45 500 1000)
    (NotifyThermalBeginOverlap GliderState.initial 5) [] 3).2.1 h2
  refine ⟨h1, a.1, ?_, h2, ?_⟩
  · rw [a.2.2]; rfl
  · rw [b.2.2]; rfl

/-! ## More readings of `Tick` -/

theorem Tick_NeutralPitch (cfg : GliderSettings) (s : GliderState) (dt : ℚ) :
    (Tick cfg s dt).1.NeutralPitch =
      cfg.NeutralPitchByVelocityCurve.GetFloatValue s.Velocity
        + cfg.NeutralPitchByRollCurve.GetFloatValue (FMath.Abs s.Roll) :=
  rfl

theorem SignedSquare_eq_spec (x : ℚ) : SignedSquare x = signedSquareSpec x := by
  unfold SignedSquare signedSquareSpec sign
  split_ifs with h1 h2
  · ring
  · rw [h2]; ring
  · ring

theorem SignedSquare_nonpos (x : ℚ) (h : x ≤ 0) : SignedSquare x ≤ 0 := by
  unfold SignedSquare
  split_ifs with h1
  · nlinarith [mul_self_nonneg x]
  · have : x = 0 := le_antisymm h (not_lt.mp h1)
    rw [this]; norm_num

theorem SignedSquare_nonneg (x : ℚ) (h : 0 ≤ x) : 0 ≤ SignedSquare x := by
  unfold SignedSquare
  rw [if_neg (not_lt.mpr h)]
  exact mul_self_nonneg x

theorem FMath.Clamp_mono (X Y Min Max : ℚ) (hm : Min ≤ Max) (h : X ≤ Y) :
    FMath.Clamp X Min Max ≤ FMath.Clamp Y Min Max := by
  unfold FMath.Clamp
  split_ifs <;> linarith

/-! ## Frames of `DeltaTime = 0` -/

theorem Tick_zero (cfg : GliderSettings) (s : GliderState) :
    (Tick cfg s 0).1 =
      { s with
        DebugStateString := (FMath.Clamp s.Velocity (1 / 100) 1, s.Pitch)
        ThermalLift :=
          if s.Num > 0 then FMath.Min cfg.ThermalLiftMaxVelocity s.ThermalLift
          else FMath.Max 0 s.ThermalLift
        NeutralPitch := cfg.NeutralPitchByVelocityCurve.GetFloatValue s.Velocity
          + cfg.NeutralPitchByRollCurve.GetFloatValue (FMath.Abs s.Roll)
        Yaw := if s.Yaw + 360 > 360 then s.Yaw + 360 - 360 else s.Yaw + 360
        Velocity := FMath.Clamp s.Velocity (1 / 100) 1 } := by
  simp only [Tick, SlewToward, FMath.Lerp, mul_zero, zero_mul, add_zero, sub_zero, ite_self]

theorem Tick_zero_of_settled (cfg : GliderSettings) (s : GliderState) (h : settled cfg s) :
    (Tick cfg s 0).1 =
      { s with Yaw := if s.Yaw + 360 > 360 then s.Yaw + 360 - 360 else s.Yaw + 360 } := by
  obtain ⟨hO, hV, hL, hN, hD⟩ := h
  have hnum : ¬ s.Num > 0 := by simp [GliderState.Num, hO]
  rw [Tick_zero, if_neg hnum, FMath.Clamp_of_between _ _ _ hV.1 hV.2, FMath.Max_eq_max,
    max_eq_right hL, ← hN, ← hD]

theorem Tick_zero_fixed (cfg : GliderSettings) (s : GliderState) (h : settled cfg s)
    (hY : 0 < s.Yaw) : (Tick cfg s 0).1 = s := by
  rw [Tick_zero_of_settled cfg s h, if_pos (by linarith)]
  have : s.Yaw + 360 - 360 = s.Yaw := by ring
  rw [this]

theorem settled_Tick_zero (cfg : GliderSettings) (s : GliderState) (h : settled cfg s) :
    settled cfg (Tick cfg s 0).1 := by
  rw [Tick_zero_of_settled cfg s h]
  exact h

theorem settled_after_two (cfg : GliderSettings) (s : GliderState)
    (hO : s.OverlappingThermals = []) : settled cfg (Tick cfg (Tick cfg s 0).1 0).1 := by
  have hc := FMath.Clamp_between s.Velocity (1 / 100) 1 (by norm_num)
  have hnum : ¬ s.Num > 0 := by simp [GliderState.Num, hO]
  have hnum1 : ¬ (Tick cfg s 0).1.Num > 0 := by
    simp [GliderState.Num, Tick_OverlappingThermals, hO]
  have hV1 : (Tick cfg s 0).1.Velocity = FMath.Clamp s.Velocity (1 / 100) 1 := by
    rw [Tick_zero]
  have hV2 : (Tick cfg (Tick cfg s 0).1 0).1.Velocity = FMath.Clamp s.Velocity (1 / 100) 1 := by
    rw [Tick_zero cfg (Tick cfg s 0).1]
    show FMath.Clamp (Tick cfg s 0).1.Velocity (1 / 100) 1 = _
    rw [hV1, FMath.Clamp_of_between _ _ _ hc.1 hc.2]
  have hR2 : (Tick cfg (Tick cfg s 0).1 0).1.Roll = (Tick cfg s 0).1.Roll := by
    rw [Tick_zero cfg (Tick cfg s 0).1]
  refine ⟨?_, ?_, ?_, ?_, rfl⟩
  · rw [Tick_OverlappingThermals, Tick_OverlappingThermals, hO]
  · rw [hV2]; exact hc
  · rw [Tick_ThermalLift, if_neg hnum1, FMath.Max_eq_max]
    exact le_max_left _ _
  · rw [Tick_NeutralPitch, hV2, hR2, hV1]

theorem restTicks_succ (cfg : GliderSettings) (s : GliderState) (n : Nat) :
    restTicks cfg s (n + 1) = restTicks cfg (Tick cfg s 0).1 n :=
  rfl

theorem restTicks_add (cfg : GliderSettings) (a b : Nat) :
    ∀ s : GliderState, restTicks cfg s (a + b) = restTicks cfg (restTicks cfg s a) b := by
  induction a with
  | zero => intro s; rw [Nat.zero_add]; rfl
  | succ a ih =>
    intro s
    rw [Nat.add_right_comm, restTicks_succ, ih, ← restTicks_succ]

theorem restTicks_Roll (cfg : GliderSettings) (n : Nat) :
    ∀ s : GliderState, (restTicks cfg s n).Roll = s.Roll := by
  induction n with
  | zero => intro s; rfl
  | succ n ih =>
    intro s
    rw [restTicks_succ, ih, Tick_zero]

theorem restTicks_ThermalLift (cfg : GliderSettings) (n : Nat) :
    ∀ s : GliderState, s.OverlappingThermals = [] →
      (restTicks cfg s (n + 1)).ThermalLift = max 0 s.ThermalLift := by
  induction n with
  | zero =>
    intro s hO
    have hnum : ¬ s.Num > 0 := by simp [GliderState.Num, hO]
    show (Tick cfg s 0).1.ThermalLift = _
    rw [Tick_zero]
    show (if s.Num > 0 then _ else _) = _
    rw [if_neg hnum, FMath.Max_eq_max]
  | succ n ih =>
    intro s hO
    have hnum : ¬ s.Num > 0 := by simp [GliderState.Num, hO]
    rw [restTicks_succ, ih _ (by rw [Tick_OverlappingThermals]; exact hO), Tick_zero]
    show max 0 (if s.Num > 0 then _ else _) = _
    rw [if_neg hnum, FMath.Max_eq_max, max_eq_right (le_max_left _ _)]

theorem restTicks_of_fixed (cfg : GliderSettings) (s : GliderState)
    (h : (Tick cfg s 0).1 = s) : ∀ n : Nat, restTicks cfg s n = s := by
  intro n
  induction n with
  | zero => rfl
  | succ n ih => rw [restTicks_succ, h, ih]

theorem restTicks_settles (cfg : GliderSettings) (n : Nat) :
    ∀ s : GliderState, settled cfg s → -360 * (n : ℚ) < s.Yaw →
      settled cfg (restTicks cfg s n) ∧ 0 < (restTicks cfg s n).Yaw := by
  induction n with
  | zero =>
    intro s hs hY
    refine ⟨hs, ?_⟩
    show 0 < s.Yaw
    simpa using hY
  | succ n ih =>
    intro s hs hY
    rw [restTicks_succ]
    apply ih _ (settled_Tick_zero cfg s hs)
    rw [Tick_zero_of_settled cfg s hs]
    show -360 * (n : ℚ) < if s.Yaw + 360 > 360 then s.Yaw + 360 - 360 else s.Yaw + 360
    push_cast at hY
    have hn : (0 : ℚ) ≤ n := Nat.cast_nonneg n
    split_ifs with h
    · linarith
    · linarith

theorem restTicks_reaches_fixed (cfg : GliderSettings) (s : GliderState)
    (hO : s.OverlappingThermals = []) :
    ∃ n : Nat, ∀ m : Nat, n ≤ m →
      (Tick cfg (restTicks cfg s m) 0).1 = restTicks cfg s m := by
  have h2 : settled cfg (restTicks cfg s 2) := settled_after_two cfg s hO
  obtain ⟨k, hk⟩ := exists_nat_gt (-(restTicks cfg s 2).Yaw / 360)
  have hY : -360 * (k : ℚ) < (restTicks cfg s 2).Yaw := by
    rw [div_lt_iff₀ (by norm_num : (0 : ℚ) < 360)] at hk
    linarith
  obtain ⟨hs, hpos⟩ := restTicks_settles cfg k (restTicks cfg s 2) h2 hY
  rw [← restTicks_add] at hs hpos
  have hfix := Tick_zero_fixed cfg (restTicks cfg s (2 + k)) hs hpos
  refine ⟨2 + k, fun m hm => ?_⟩
  obtain ⟨d, rfl⟩ := Nat.exists_eq_add_of_le hm
  rw [restTicks_add cfg (2 + k) d s, restTicks_of_fixed cfg _ hfix d]
  exact hfix

/-! ## C11: frames of `DeltaTime = 0` at rest -/

/-- C11 fails as stated. A glider with both axes `0`, no recorded thermal, `Roll = 10` and
`ThermalLift = 5` keeps `Roll = 10` and `ThermalLift = 5` after any number of frames of
`DeltaTime = 0`, so no number of such frames reaches `Roll = 0` and `ThermalLift = 0`. -/
theorem C11_rest_counterexample :
    ((exampleState 0 10 5 []).UpInputAxis = 0 ∧ (exampleState 0 10 5 []).RightInputAxis = 0
        ∧ (exampleState 0 10 5 []).OverlappingThermals = [])
      ∧ (∀ n : Nat, (restTicks (constSettings 1 45 500 1000) (exampleState 0 10 5 []) n).Roll = 10
          ∧ (restTicks (constSettings 1 45 500 1000) (exampleState 0 10 5 []) n).ThermalLift = 5)
      ∧ ¬ ∃ n : Nat,
          (restTicks (constSettings 1 45 500 1000) (exampleState 0 10 5 []) n).Roll = 0
            ∧ (restTicks (constSettings 1 45 500 1000) (exampleState 0 10 5 []) n).ThermalLift
                = 0 := by
  have hall : ∀ n : Nat,
      (restTicks (constSettings 1 45 500 1000) (exampleState 0 10 5 []) n).Roll = 10
        ∧ (restTicks (constSettings 1 45 500 1000) (exampleState 0 10 5 []) n).ThermalLift
            = 5 := by
    intro n
    refine ⟨by rw [restTicks_Roll]; rfl, ?_⟩
    cases n with
    | zero => rfl
    | succ n =>
      rw [restTicks_ThermalLift _ n _ rfl]
      show max (0 : ℚ) 5 = 5
      norm_num
  refine ⟨⟨rfl, rfl, rfl⟩, hall, ?_⟩
  rintro ⟨n, hn, _⟩
  rw [(hall n).1] at hn
  norm_num at hn

/-- C11, amended: with `DeltaTime = 0` and no recorded thermal (whatever the axes), `Tick` does
not move `Roll`: after any number of such frames `Roll` is the prior `Roll`, and after at least
one such frame `ThermalLift` is `max(0, prior ThermalLift)`. For every prior state there is an
`n` such that from `n` such frames on, a further such `Tick` leaves the whole state unchanged.
So the fixed point has `Roll = 0` and `ThermalLift = 0` when the prior `Roll` is `0` and the
prior `ThermalLift` is `≤ 0`. -/
theorem C11_rest_amended (cfg : GliderSettings) (s : GliderState)
    (hO : s.OverlappingThermals = []) :
    (∀ n : Nat, (restTicks cfg s n).Roll = s.Roll)
      ∧ (∀ n : Nat, (restTicks cfg s (n + 1)).ThermalLift = max 0 s.ThermalLift)
      ∧ (∃ n : Nat, ∀ m : Nat, n ≤ m →
          (Tick cfg (restTicks cfg s m) 0).1 = restTicks cfg s m)
      ∧ (s.Roll = 0 → s.ThermalLift ≤ 0 →
          ∃ n : Nat, ∀ m : Nat, n ≤ m →
            (restTicks cfg s m).Roll = 0 ∧ (restTicks cfg s m).ThermalLift = 0
              ∧ (Tick cfg (restTicks cfg s m) 0).1 = restTicks cfg s m) := by
  refine ⟨fun n => restTicks_Roll cfg n s, fun n => restTicks_ThermalLift cfg n s hO,
    restTicks_reaches_fixed cfg s hO, ?_⟩
  intro hR hL
  obtain ⟨n, hn⟩ := restTicks_reaches_fixed cfg s hO
  refine ⟨n + 1, fun m hm => ?_⟩
  obtain ⟨d, rfl⟩ := Nat.exists_eq_add_of_le hm
  refine ⟨by rw [restTicks_Roll, hR], ?_, hn _ (by omega)⟩
  rw [Nat.add_right_comm, restTicks_ThermalLift cfg (n + d) s hO]
  exact max_eq_left hL

/-- C11, amended, on a fresh glider (no recorded thermal, `Roll = 0`, `ThermalLift = 0`): from
some number of frames of `DeltaTime = 0` on, `Roll = 0`, `ThermalLift = 0` and a further frame
changes nothing. -/
theorem C11_rest_amended_witness :
    GliderState.initial.OverlappingThermals = []
      ∧ ∃ n : Nat, ∀ m : Nat, n ≤ m →
          (restTicks (constSettings 1 45 500 1000) GliderState.initial m).Roll = 0
            ∧ (restTicks (constSettings 1 45 500 1000) GliderState.initial m).ThermalLift = 0
            ∧ (Tick (constSettings 1 45 500 1000)
                (restTicks (constSettings 1 45 500 1000) GliderState.initial m) 0).1
                = restTicks (constSettings 1 45 500 1000) GliderState.initial m :=
  ⟨rfl, (C11_rest_amended (constSettings 1 45 500 1000) GliderState.initial rfl).2.2.2 rfl
    (le_refl _)⟩

/-! ## C12: what `Tick` hands to the host -/

/-- C12: `Tick` makes exactly three calls on the host, in the order set-rotation, local offset,
world offset: the rotation is `(Pitch, Yaw, Roll)` as stored by this `Tick`, the local offset is
`(Velocity * VelocityScale * DeltaTime, 0, 0)` with the velocity stored by this `Tick` (after
clamping), and the world offset is `(0, 0, ThermalLift * DeltaTime)` with the thermal lift stored
by this `Tick`. -/
theorem C12_host_calls (cfg : GliderSettings) (s : GliderState) (DeltaTime : ℚ) :
    (Tick cfg s DeltaTime).2 =
      [ HostCall.SetActorRotation (Tick cfg s DeltaTime).1.Pitch (Tick cfg s DeltaTime).1.Yaw
          (Tick cfg s DeltaTime).1.Roll,
        HostCall.AddActorLocalOffset
          ((Tick cfg s DeltaTime).1.Velocity * cfg.VelocityScale * DeltaTime) 0 0,
        HostCall.AddActorWorldOffset 0 0 ((Tick cfg s DeltaTime).1.ThermalLift * DeltaTime) ] :=
  rfl

/-! ## C13: the axis setters -/

/-- C13: `MoveUpInput` changes `UpInputAxis` and nothing else, `MoveRightInput` changes
`RightInputAxis` and nothing else (the recorded thermals and every flight variable are
untouched), and for all `a`, `b` the two orders of calling them give the same state. -/
theorem C13_setters_independent (s : GliderState) (a b : ℚ) :
    MoveUpInput s a = { s with UpInputAxis := (MoveUpInput s a).UpInputAxis }
      ∧ MoveRightInput s b = { s with RightInputAxis := (MoveRightInput s b).RightInputAxis }
      ∧ ((MoveUpInput s a).RightInputAxis = s.RightInputAxis
        ∧ (MoveUpInput s a).OverlappingThermals = s.OverlappingThermals
        ∧ (MoveUpInput s a).ThermalLift = s.ThermalLift
        ∧ (MoveUpInput s a).Roll = s.Roll ∧ (MoveUpInput s a).Pitch = s.Pitch
        ∧ (MoveUpInput s a).Yaw = s.Yaw ∧ (MoveUpInput s a).Velocity = s.Velocity)
      ∧ ((MoveRightInput s b).UpInputAxis = s.UpInputAxis
        ∧ (MoveRightInput s b).OverlappingThermals = s.OverlappingThermals
        ∧ (MoveRightInput s b).ThermalLift = s.ThermalLift
        ∧ (MoveRightInput s b).Roll = s.Roll ∧ (MoveRightInput s b).Pitch = s.Pitch
        ∧ (MoveRightInput s b).Yaw = s.Yaw ∧ (MoveRightInput s b).Velocity = s.Velocity)
      ∧ MoveRightInput (MoveUpInput s a) b = MoveUpInput (MoveRightInput s b) a :=
  ⟨rfl, rfl, ⟨rfl, rfl, rfl, rfl, rfl, rfl, rfl⟩, ⟨rfl, rfl, rfl, rfl, rfl, rfl, rfl⟩, rfl⟩

/-! ## Engine arithmetic: absolute value and the near-zero test -/

theorem FMath.Abs_eq_abs (A : ℚ) : FMath.Abs A = |A| := by
  unfold FMath.Abs
  split_ifs with h
  · exact (abs_of_nonneg h).symm
  · exact (abs_of_neg (not_le.mp h)).symm

theorem FMath.Abs_nonneg (A : ℚ) : 0 ≤ FMath.Abs A := by
  rw [FMath.Abs_eq_abs]
  exact abs_nonneg A

theorem FMath.IsNearlyZero_iff (x : ℚ) :
    FMath.IsNearlyZero x = true ↔ |x| ≤ 1 / 100000000 := by
  unfold FMath.IsNearlyZero FMath.SMALL_NUMBER
  rw [decide_eq_true_iff, FMath.Abs_eq_abs]

theorem FMath.IsNearlyZero_zero : FMath.IsNearlyZero 0 = true := by
  rw [FMath.IsNearlyZero_iff]
  norm_num

/-! ## C14: the yaw rate -/

/-- C14 fails as stated. On a fresh glider with every curve constantly `5` and `DeltaTime = 1`
the updated roll is `0`, where `sign(Roll) * curve(|Roll|)` is `0`; the yaw rate `Tick` uses is
`curve(0) = 5`, and the stored `Yaw` is `5`. -/
theorem C14_yaw_rate_counterexample :
    (Tick (constSettings 5 45 500 1000) GliderState.initial 1).1.Roll = 0
      ∧ sign (Tick (constSettings 5 45 500 1000) GliderState.initial 1).1.Roll
          * (constSettings 5 45 500 1000).DeltaYawByRollCurve.GetFloatValue
              |(Tick (constSettings 5 45 500 1000) GliderState.initial 1).1.Roll| = 0
      ∧ deltaYaw (constSettings 5 45 500 1000)
          (Tick (constSettings 5 45 500 1000) GliderState.initial 1).1.Roll = 5
      ∧ (Tick (constSettings 5 45 500 1000) GliderState.initial 1).1.Yaw = 5 := by
  have hR : (Tick (constSettings 5 45 500 1000) GliderState.initial 1).1.Roll = 0 := by
    norm_num [Tick, constSettings, GliderState.initial, SlewToward, FMath.Lerp,
      FMath.IsNearlyZero, FMath.Abs, FMath.SMALL_NUMBER]
  refine ⟨hR, ?_, ?_, ?_⟩
  · rw [hR]; norm_num [sign]
  · rw [hR]; norm_num [deltaYaw, constSettings]
  · norm_num [Tick, constSettings, GliderState.initial, SlewToward, FMath.Lerp,
      FMath.IsNearlyZero, FMath.Abs, FMath.SMALL_NUMBER]

/-- C14, amended: the yaw rate `Tick` uses at the updated roll `Roll` is
`DeltaYawByRollCurve(Roll)` for `Roll ≥ 0` and `-DeltaYawByRollCurve(-Roll)` for `Roll < 0`, for
every roll value `r` and every curve. So it is `sign(r) * DeltaYawByRollCurve(|r|)` for every
`r ≠ 0`, and at `r = 0` it is the value of the curve at `0`. The curve is queried at `|r| ≥ 0`
only: replacing it by a curve with the same values on non-negative arguments leaves the yaw rate
unchanged. -/
theorem C14_yaw_rate_amended (cfg : GliderSettings) (s : GliderState) (DeltaTime r : ℚ) :
    ((Tick cfg s DeltaTime).1.Yaw =
        if s.Yaw + deltaYaw cfg (Tick cfg s DeltaTime).1.Roll * DeltaTime + 360 > 360
        then s.Yaw + deltaYaw cfg (Tick cfg s DeltaTime).1.Roll * DeltaTime + 360 - 360
        else s.Yaw + deltaYaw cfg (Tick cfg s DeltaTime).1.Roll * DeltaTime + 360)
      ∧ deltaYaw cfg r
          = (if r ≥ 0 then 1 else -1) * cfg.DeltaYawByRollCurve.GetFloatValue |r|
      ∧ (r ≠ 0 → deltaYaw cfg r = sign r * cfg.DeltaYawByRollCurve.GetFloatValue |r|)
      ∧ (r = 0 → deltaYaw cfg r = cfg.DeltaYawByRollCurve.GetFloatValue 0)
      ∧ (∀ curve : UCurveFloat,
          (∀ x : ℚ, 0 ≤ x →
            curve.GetFloatValue x = cfg.DeltaYawByRollCurve.GetFloatValue x) →
          deltaYaw { cfg with DeltaYawByRollCurve := curve } r = deltaYaw cfg r) := by
  refine ⟨rfl, ?_, ?_, ?_, ?_⟩
  · unfold deltaYaw
    split_ifs with h
    · rw [abs_of_nonneg h, one_mul]
    · rw [abs_of_neg (not_le.mp h)]; ring
  · intro hne
    unfold deltaYaw sign
    rcases lt_or_gt_of_ne hne with h | h
    · rw [if_neg (not_le.mpr h), if_pos h, abs_of_neg h]; ring
    · rw [if_pos (le_of_lt h), if_neg (not_lt.mpr (le_of_lt h)), if_neg (ne_of_gt h),
        abs_of_pos h, one_mul]
  · intro h0
    unfold deltaYaw
    rw [h0, if_pos (le_refl _)]
  · intro curve hc
    unfold deltaYaw
    split_ifs with h
    · exact hc r h
    · show -curve.GetFloatValue (-r) = _
      rw [hc (-r) (by linarith [not_le.mp h])]

/-- C14, amended, at the roll `-30` with the curve constantly `5`: the yaw rate is
`sign(-30) * 5 = -5`. -/
theorem C14_yaw_rate_amended_witness :
    (-30 : ℚ) ≠ 0 ∧ deltaYaw (constSettings 5 45 500 1000) (-30) = -5 := by
  refine ⟨by norm_num, ?_⟩
  rw [(C14_yaw_rate_amended (constSettings 5 45 500 1000) GliderState.initial 1 (-30)).2.2.1
    (by norm_num)]
  norm_num [sign, constSettings]

/-! ## C15: which branch slews the input roll -/

/-- C15 fails as stated. (1) With `MaxRoll = 1000` and `RightInputAxis = 1e-9`, which is nearly
zero, `Tick` takes the curve branch: with `RollNoInputSlew = 1`, the curve constantly `0`,
prior `SlewedInputRoll = 10` and `DeltaTime = 1` it stores `10`, while the no-input lerp gives
`1e-6`. (2) With `MaxRoll = 0` and `RightInputAxis = 1`, which is not nearly zero, `Tick` takes
the no-input branch: it stores `0`, while the bounded-approach slew gives `10`. -/
theorem C15_input_roll_branch_counterexample :
    (FMath.IsNearlyZero (rollState 10 0 (1 / 1000000000)).RightInputAxis = true
        ∧ (Tick (rollSettings 1 0 1000) (rollState 10 0 (1 / 1000000000)) 1).1.SlewedInputRoll
            = 10
        ∧ FMath.Lerp (rollState 10 0 (1 / 1000000000)).SlewedInputRoll
            ((rollState 10 0 (1 / 1000000000)).RightInputAxis * (rollSettings 1 0 1000).MaxRoll)
            ((rollSettings 1 0 1000).RollNoInputSlew * 1) = 1 / 1000000)
      ∧ (FMath.IsNearlyZero (rollState 10 0 1).RightInputAxis = false
        ∧ (Tick (rollSettings 1 0 0) (rollState 10 0 1) 1).1.SlewedInputRoll = 0
        ∧ SlewToward (rollState 10 0 1).SlewedInputRoll
            ((rollState 10 0 1).RightInputAxis * (rollSettings 1 0 0).MaxRoll)
            (-(rollSettings 1 0 0).MaxRoll) (rollSettings 1 0 0).MaxRoll
            (rollSettings 1 0 0).RollInputSlewByAmountToLimitCurve 1 = 10) := by
  refine ⟨⟨?_, ?_, ?_⟩, ⟨?_, ?_, ?_⟩⟩
  · norm_num [FMath.IsNearlyZero, FMath.Abs, FMath.SMALL_NUMBER, rollState, GliderState.initial]
  · norm_num [Tick_SlewedInputRoll, rollSettings, constSettings, rollState,
      GliderState.initial, SlewToward, FMath.Lerp, FMath.IsNearlyZero, FMath.Abs,
      FMath.SMALL_NUMBER]
  · norm_num [rollSettings, constSettings, rollState, GliderState.initial, FMath.Lerp]
  · norm_num [FMath.IsNearlyZero, FMath.Abs, FMath.SMALL_NUMBER, rollState, GliderState.initial]
  · norm_num [Tick_SlewedInputRoll, rollSettings, constSettings, rollState,
      GliderState.initial, SlewToward, FMath.Lerp, FMath.IsNearlyZero, FMath.Abs,
      FMath.SMALL_NUMBER]
  · norm_num [rollSettings, constSettings, rollState, GliderState.initial, SlewToward,
      FMath.Lerp]

/-- C15, amended: the input-roll slew is keyed on the target `inputRoll = RightInputAxis *
MaxRoll`, not on the axis. For every state and all settings: when `|RightInputAxis * MaxRoll| ≤
1e-8` (in particular when `RightInputAxis = 0`, for every `MaxRoll`), `Tick` sets
`SlewedInputRoll = lerp(SlewedInputRoll, RightInputAxis * MaxRoll, RollNoInputSlew *
DeltaTime)`, whatever `RollInputSlewByAmountToLimitCurve` is; otherwise it uses the
bounded-approach slew toward `RightInputAxis * MaxRoll` with bounds `[-MaxRoll, MaxRoll]`. -/
theorem C15_input_roll_branch_amended (cfg : GliderSettings) (s : GliderState) (DeltaTime : ℚ) :
    (|s.RightInputAxis * cfg.MaxRoll| ≤ 1 / 100000000 →
        (Tick cfg s DeltaTime).1.SlewedInputRoll
            = FMath.Lerp s.SlewedInputRoll (s.RightInputAxis * cfg.MaxRoll)
                (cfg.RollNoInputSlew * DeltaTime)
          ∧ ∀ curve : UCurveFloat,
              (Tick { cfg with RollInputSlewByAmountToLimitCurve := curve } s
                DeltaTime).1.SlewedInputRoll = (Tick cfg s DeltaTime).1.SlewedInputRoll)
      ∧ (s.RightInputAxis = 0 →
        (Tick cfg s DeltaTime).1.SlewedInputRoll
          = FMath.Lerp s.SlewedInputRoll 0 (cfg.RollNoInputSlew * DeltaTime))
      ∧ (¬ |s.RightInputAxis * cfg.MaxRoll| ≤ 1 / 100000000 →
        (Tick cfg s DeltaTime).1.SlewedInputRoll
          = SlewToward s.SlewedInputRoll (s.RightInputAxis * cfg.MaxRoll) (-cfg.MaxRoll)
              cfg.MaxRoll cfg.RollInputSlewByAmountToLimitCurve DeltaTime) := by
  have key : ∀ c : GliderSettings, FMath.IsNearlyZero (s.RightInputAxis * c.MaxRoll) = true →
      (Tick c s DeltaTime).1.SlewedInputRoll
        = FMath.Lerp s.SlewedInputRoll (s.RightInputAxis * c.MaxRoll)
            (c.RollNoInputSlew * DeltaTime) := by
    intro c h
    rw [Tick_SlewedInputRoll, if_pos h]
  refine ⟨fun h => ?_, fun h => ?_, fun h => ?_⟩
  · have hz := (FMath.IsNearlyZero_iff _).mpr h
    refine ⟨key cfg hz, fun curve => ?_⟩
    rw [key cfg hz, key { cfg with RollInputSlewByAmountToLimitCurve := curve } hz]
  · have hz : FMath.IsNearlyZero (s.RightInputAxis * cfg.MaxRoll) = true := by
      rw [h, zero_mul]; exact FMath.IsNearlyZero_zero
    rw [key cfg hz, h, zero_mul]
  · have hz : ¬ FMath.IsNearlyZero (s.RightInputAxis * cfg.MaxRoll) = true :=
      fun hz => h ((FMath.IsNearlyZero_iff _).mp hz)
    rw [Tick_SlewedInputRoll, if_neg hz]

/-- C15, amended, on the two inputs of the counterexample: with target `1e-9 * 1000 = 1e-6`,
not nearly zero, the stored value is that of the bounded-approach slew; with target `1 * 0 = 0`
the stored value is that of the no-input lerp. -/
theorem C15_input_roll_branch_amended_witness :
    (Tick (rollSettings 1 0 1000) (rollState 10 0 (1 / 1000000000)) 1).1.SlewedInputRoll
        = SlewToward 10 (1 / 1000000000 * 1000) (-1000) 1000 ⟨fun _ => 0⟩ 1
      ∧ (Tick (rollSettings 1 0 0) (rollState 10 0 1) 1).1.SlewedInputRoll
        = FMath.Lerp 10 (1 * 0) (1 * 1) :=
  ⟨(C15_input_roll_branch_amended (rollSettings 1 0 1000) (rollState 10 0 (1 / 1000000000))
      1).2.2 (by norm_num [rollSettings, constSettings, rollState, GliderState.initial, abs_of_pos]),
   ((C15_input_roll_branch_amended (rollSettings 1 0 0) (rollState 10 0 1) 1).1
      (by norm_num [rollSettings, constSettings, rollState, GliderState.initial])).1⟩

/-! ## C16: the target input pitch -/

/-- C16 fails as stated, in single precision. With the neutral pitch `-44.8f` (the `float`
nearest to `-44.8`, from the velocity curve, the roll curve being `0`), `maxPitchNow = 45` and
`UpInputAxis = -1`, the target input pitch that `Tick` computes is `45.0000038...` (that is
`11796481 / 262144`), not `maxPitchNow`. -/
theorem C16_target_input_pitch_counterexample :
    (MoveUpInput GliderState.initial (-1)).UpInputAxis = -1
      ∧ (TickR f32 (pitchSettings (-11744051 / 262144) 45 0)
          (MoveUpInput GliderState.initial (-1)) 1).1.NeutralPitch = -11744051 / 262144
      ∧ (pitchSettings (-11744051 / 262144) 45 0).MaxPitchByVelocityCurve.GetFloatValue
          (MoveUpInput GliderState.initial (-1)).Velocity = 45
      ∧ inputPitchR f32 (pitchSettings (-11744051 / 262144) 45 0)
          (MoveUpInput GliderState.initial (-1)) = 11796481 / 262144
      ∧ inputPitchR f32 (pitchSettings (-11744051 / 262144) 45 0)
          (MoveUpInput GliderState.initial (-1)) ≠ 45 := by
  have hU : (MoveUpInput GliderState.initial (-1)).UpInputAxis = -1 := by
    norm_num [MoveUpInput, FMath.Clamp]
  have hP : inputPitchR f32 (pitchSettings (-11744051 / 262144) 45 0)
      (MoveUpInput GliderState.initial (-1)) = 11796481 / 262144 := by
    norm_num [inputPitchR, pitchSettings, constSettings, MoveUpInput, GliderState.initial,
      FMath.Clamp, FMath.LerpR, f32_neg, f32_44_8_fix, f32_span, f32_span_fix, f32_past_45]
  refine ⟨hU, ?_, rfl, hP, ?_⟩
  · norm_num [TickR_NeutralPitch, pitchSettings, constSettings, f32_neg, f32_44_8_fix]
  · rw [hP]; norm_num

/-- C16, amended: in every arithmetic whose rounding is monotone, keeps `0` and keeps rounded
values (exact arithmetic and single precision are two), with
`neutralPitch = NeutralPitchByVelocityCurve(Velocity) + NeutralPitchByRollCurve(|Roll|)` and
`maxPitchNow = MaxPitchByVelocityCurve(Velocity)` taken on the velocity and roll before the
frame, the target input pitch `inputPitch` that `Tick` slews `SlewedInputPitch` toward is
`neutralPitch + (-UpInputAxis) * (maxPitchNow - neutralPitch)` when `UpInputAxis < 0` and
`neutralPitch + UpInputAxis * (MinPitch - neutralPitch)` otherwise; `neutralPitch` is what `Tick`
stores in `NeutralPitch`. The target is `neutralPitch` at `UpInputAxis = 0`; at
`UpInputAxis = -1` it is the full-step value `lerp(neutralPitch, maxPitchNow, 1)` and at
`UpInputAxis = 1` the full-step value `lerp(neutralPitch, MinPitch, 1)`, which in exact
arithmetic are `maxPitchNow` and `MinPitch`. -/
theorem C16_target_input_pitch_amended (fl : ℚ → ℚ) (cfg : GliderSettings) (s : GliderState)
    (DeltaTime : ℚ) (hfl : IsRounding fl) :
    ((TickR fl cfg s DeltaTime).1.SlewedInputPitch =
        if FMath.IsNearlyZeroR fl s.UpInputAxis then
          FMath.LerpR fl s.SlewedInputPitch (inputPitchR fl cfg s)
            (fl (cfg.PitchNoInputSlew * DeltaTime))
        else
          SlewTowardR fl s.SlewedInputPitch (inputPitchR fl cfg s) cfg.MinPitch
            (cfg.MaxPitchByVelocityCurve.GetFloatValue s.Velocity)
            cfg.PitchInputSlewByAmountToLimitCurve DeltaTime)
      ∧ (TickR fl cfg s DeltaTime).1.NeutralPitch
          = fl (cfg.NeutralPitchByVelocityCurve.GetFloatValue s.Velocity
            + cfg.NeutralPitchByRollCurve.GetFloatValue |s.Roll|)
      ∧ inputPitchR fl cfg s =
          (if s.UpInputAxis < 0 then
            fl ((TickR fl cfg s DeltaTime).1.NeutralPitch
              + fl (-s.UpInputAxis * fl (cfg.MaxPitchByVelocityCurve.GetFloatValue s.Velocity
                  - (TickR fl cfg s DeltaTime).1.NeutralPitch)))
          else
            fl ((TickR fl cfg s DeltaTime).1.NeutralPitch
              + fl (s.UpInputAxis
                  * fl (cfg.MinPitch - (TickR fl cfg s DeltaTime).1.NeutralPitch))))
      ∧ (s.UpInputAxis = 0 → inputPitchR fl cfg s = (TickR fl cfg s DeltaTime).1.NeutralPitch)
      ∧ (s.UpInputAxis = -1 →
          inputPitchR fl cfg s
            = FMath.LerpR fl (TickR fl cfg s DeltaTime).1.NeutralPitch
                (cfg.MaxPitchByVelocityCurve.GetFloatValue s.Velocity) 1)
      ∧ (s.UpInputAxis = 1 →
          inputPitchR fl cfg s
            = FMath.LerpR fl (TickR fl cfg s DeltaTime).1.NeutralPitch cfg.MinPitch 1)
      ∧ (FMath.LerpR id (Tick cfg s DeltaTime).1.NeutralPitch
            (cfg.MaxPitchByVelocityCurve.GetFloatValue s.Velocity) 1
            = cfg.MaxPitchByVelocityCurve.GetFloatValue s.Velocity
        ∧ FMath.LerpR id (Tick cfg s DeltaTime).1.NeutralPitch cfg.MinPitch 1 = cfg.MinPitch) := by
  have hform : inputPitchR fl cfg s =
      (if s.UpInputAxis < 0 then
        FMath.LerpR fl (TickR fl cfg s DeltaTime).1.NeutralPitch
          (cfg.MaxPitchByVelocityCurve.GetFloatValue s.Velocity) (-s.UpInputAxis)
      else
        FMath.LerpR fl (TickR fl cfg s DeltaTime).1.NeutralPitch cfg.MinPitch s.UpInputAxis) :=
    rfl
  have hN : fl (TickR fl cfg s DeltaTime).1.NeutralPitch
      = (TickR fl cfg s DeltaTime).1.NeutralPitch := by
    rw [TickR_NeutralPitch]
    exact hfl.2.2 _
  refine ⟨rfl, ?_, hform, fun h => ?_, fun h => ?_, fun h => ?_,
    ⟨FMath.LerpR_id_one _ _, FMath.LerpR_id_one _ _⟩⟩
  · rw [TickR_NeutralPitch, FMath.Abs_eq_abs]
  · rw [hform, h, if_neg (by norm_num)]
    exact FMath.LerpR_zero fl hfl _ _ hN
  · rw [hform, h, if_pos (by norm_num), neg_neg]
  · rw [hform, h, if_neg (by norm_num)]

/-- C16, amended, in single precision on a fresh glider (`UpInputAxis = 0`) with the neutral
pitch `-44.8f`: the target input pitch is the neutral pitch, `-44.8f`. -/
theorem C16_target_input_pitch_amended_witness :
    GliderState.initial.UpInputAxis = 0
      ∧ (TickR f32 (pitchSettings (-11744051 / 262144) 45 0) GliderState.initial
          1).1.NeutralPitch = -11744051 / 262144
      ∧ inputPitchR f32 (pitchSettings (-11744051 / 262144) 45 0) GliderState.initial
          = -11744051 / 262144 := by
  have hN : (TickR f32 (pitchSettings (-11744051 / 262144) 45 0) GliderState.initial
      1).1.NeutralPitch = -11744051 / 262144 := by
    norm_num [TickR_NeutralPitch, pitchSettings, constSettings, f32_neg, f32_44_8_fix]
  have h := (C16_target_input_pitch_amended f32 (pitchSettings (-11744051 / 262144) 45 0)
    GliderState.initial 1 f32_isRounding).2.2.2.1 rfl
  exact ⟨rfl, hN, h.trans hN⟩

/-! ## C17: the velocity step -/

/-- C17: with `sp = Sin(DegreesToRadians(Pitch))` taken on the pitch stored by this `Tick` and
`v` the velocity before the frame, `Tick` stores
`Velocity = clamp(v + DeltaVelocityByVerticalVelocityCurve(sp * v) * DeltaTime
  - signedSquare(sp) * Gravity * DeltaTime, 0.01, 1.0)`,
where `signedSquare(x) = sign(x) * x²`, that is `-(x * x)` for `x < 0` and `x * x` otherwise, an
odd function. With `Gravity ≥ 0` and `DeltaTime ≥ 0`, for `sp ≤ 0` the gravity term
`signedSquare(sp) * Gravity * DeltaTime` is `≤ 0` and the stored velocity is at least the one
computed without it; for `sp ≥ 0` the term is `≥ 0` and the stored velocity is at most the one
computed without it. -/
theorem C17_velocity_step (cfg : GliderSettings) (s : GliderState) (DeltaTime x : ℚ) :
    (Tick cfg s DeltaTime).1.Velocity =
        FMath.Clamp
          (s.Velocity
            + cfg.DeltaVelocityByVerticalVelocityCurve.GetFloatValue
                (cfg.Sin (FMath.DegreesToRadians (Tick cfg s DeltaTime).1.Pitch) * s.Velocity)
              * DeltaTime
            - signedSquareSpec (cfg.Sin (FMath.DegreesToRadians (Tick cfg s DeltaTime).1.Pitch))
              * cfg.Gravity * DeltaTime)
          (1 / 100) 1
      ∧ (SignedSquare x = sign x * x ^ 2
        ∧ (x < 0 → SignedSquare x = -(x * x))
        ∧ (¬ x < 0 → SignedSquare x = x * x)
        ∧ SignedSquare (-x) = -SignedSquare x)
      ∧ (0 ≤ cfg.Gravity → 0 ≤ DeltaTime →
          cfg.Sin (FMath.DegreesToRadians (Tick cfg s DeltaTime).1.Pitch) ≤ 0 →
          SignedSquare (cfg.Sin (FMath.DegreesToRadians (Tick cfg s DeltaTime).1.Pitch))
              * cfg.Gravity * DeltaTime ≤ 0
            ∧ FMath.Clamp
                (s.Velocity
                  + cfg.DeltaVelocityByVerticalVelocityCurve.GetFloatValue
                      (cfg.Sin (FMath.DegreesToRadians (Tick cfg s DeltaTime).1.Pitch)
                        * s.Velocity) * DeltaTime)
                (1 / 100) 1 ≤ (Tick cfg s DeltaTime).1.Velocity)
      ∧ (0 ≤ cfg.Gravity → 0 ≤ DeltaTime →
          0 ≤ cfg.Sin (FMath.DegreesToRadians (Tick cfg s DeltaTime).1.Pitch) →
          0 ≤ SignedSquare (cfg.Sin (FMath.DegreesToRadians (Tick cfg s DeltaTime).1.Pitch))
              * cfg.Gravity * DeltaTime
            ∧ (Tick cfg s DeltaTime).1.Velocity
              ≤ FMath.Clamp
                (s.Velocity
                  + cfg.DeltaVelocityByVerticalVelocityCurve.GetFloatValue
                      (cfg.Sin (FMath.DegreesToRadians (Tick cfg s DeltaTime).1.Pitch)
                        * s.Velocity) * DeltaTime)
                (1 / 100) 1) := by
  have hodd : SignedSquare (-x) = -SignedSquare x := by
    unfold SignedSquare
    rcases lt_trichotomy x 0 with h | h | h
    · rw [if_neg (by linarith), if_pos h]; ring
    · rw [h]; norm_num
    · rw [if_pos (by linarith), if_neg (by linarith)]; ring
  refine ⟨?_, ⟨?_, fun h => ?_, fun h => ?_, hodd⟩, fun hG hdt hs => ?_, fun hG hdt hs => ?_⟩
  · rw [Tick_Velocity, SignedSquare_eq_spec]
  · rw [SignedSquare_eq_spec]; rfl
  · unfold SignedSquare; rw [if_pos h]
  · unfold SignedSquare; rw [if_neg h]
  · have hterm : SignedSquare (cfg.Sin (FMath.DegreesToRadians (Tick cfg s DeltaTime).1.Pitch))
        * cfg.Gravity * DeltaTime ≤ 0 := by
      have h1 := SignedSquare_nonpos _ hs
      have h2 : 0 ≤ cfg.Gravity * DeltaTime := mul_nonneg hG hdt
      rw [mul_assoc]
      exact mul_nonpos_of_nonpos_of_nonneg h1 h2
    refine ⟨hterm, ?_⟩
    rw [Tick_Velocity]
    exact FMath.Clamp_mono _ _ _ _ (by norm_num) (by linarith)
  · have hterm : 0 ≤ SignedSquare
        (cfg.Sin (FMath.DegreesToRadians (Tick cfg s DeltaTime).1.Pitch))
        * cfg.Gravity * DeltaTime := by
      have h1 := SignedSquare_nonneg _ hs
      exact mul_nonneg (mul_nonneg h1 hG) hdt
    refine ⟨hterm, ?_⟩
    rw [Tick_Velocity]
    exact FMath.Clamp_mono _ _ _ _ (by norm_num) (by linarith)

/-- C17 on a glider whose sine is constantly `-1/2` (a dive), with gravity `1`, velocity curve
constantly `0`, prior velocity `0` and `DeltaTime = 1`: the gravity term is `-1/4`, and the
stored velocity `1/4` is at least the `0.01` computed without it. -/
theorem C17_velocity_step_witness :
    (0 : ℚ) ≤ 1 ∧ (-1 / 2 : ℚ) ≤ 0
      ∧ SignedSquare (-1 / 2) * 1 * 1 ≤ 0
      ∧ (Tick { constSettings 0 45 500 1000 with Sin := fun _ => -1 / 2 }
          GliderState.initial 1).1.Velocity = 1 / 4 := by
  have h := (C17_velocity_step { constSettings 0 45 500 1000 with Sin := fun _ => -1 / 2 }
    GliderState.initial 1 0).2.2.1 (by norm_num [constSettings]) (by norm_num) (by norm_num)
  refine ⟨by norm_num, by norm_num, h.1, ?_⟩
  rw [(C17_velocity_step { constSettings 0 45 500 1000 with Sin := fun _ => -1 / 2 }
    GliderState.initial 1 0).1]
  norm_num [signedSquareSpec, sign, constSettings, GliderState.initial, FMath.Clamp]

/-! ## C18: the bounded-approach slew and its target -/

/-- C18 fails as stated, in single precision. With `current = -44.8f` (the `float` nearest to
`-44.8`), `target = 45`, bounds `[-45, 45]`, the curve constantly `1` and `dt = 1`, the step
fraction is `1`, which lies in `[0, 1]`, and `SlewToward` returns `45.0000038...` (that is
`11796481 / 262144`): beyond the target, so outside the closed interval between `current` and
`target`, and not the target although the step fraction is `1`. -/
theorem C18_slew_counterexample :
    f32 (-224 / 5) = -11744051 / 262144
      ∧ f32 ((⟨fun _ => 1⟩ : UCurveFloat).GetFloatValue
            (amountToLimitR f32 (-11744051 / 262144) 45 (-45) 45) * 1) = 1
      ∧ SlewTowardR f32 (-11744051 / 262144) 45 (-45) 45 ⟨fun _ => 1⟩ 1 = 11796481 / 262144
      ∧ ¬ SlewTowardR f32 (-11744051 / 262144) 45 (-45) 45 ⟨fun _ => 1⟩ 1
          ≤ max (-11744051 / 262144) 45
      ∧ SlewTowardR f32 (-11744051 / 262144) 45 (-45) 45 ⟨fun _ => 1⟩ 1 ≠ 45 := by
  refine ⟨f32_neg_44_8, ?_, SlewTowardR_f32_past_target, ?_, ?_⟩
  · norm_num [f32_one]
  · rw [SlewTowardR_f32_past_target]; norm_num
  · rw [SlewTowardR_f32_past_target]; norm_num

/-- C18, amended: in every arithmetic whose rounding is monotone, keeps `0` and keeps rounded
values (exact arithmetic and single precision are two), for `current` a value of that
arithmetic, `SlewToward(current, target, min, max, curve, dt)` is the lerp from `current`
toward `target` by the step fraction `f = curve(amountToLimit) * dt`, with
`amountToLimit = max - current` if `target > current` and `current - min` otherwise. Whenever
`0 ≤ f ≤ 1` the result lies in the closed interval between `current` and the full-step value
`lerp(current, target, 1)`, which it equals when `f = 1`; the result is `current` when
`target = current` and when `dt = 0`. In exact arithmetic the full-step value is `target`. -/
theorem C18_slew_amended (fl : ℚ → ℚ) (current target lo hi : ℚ) (curve : UCurveFloat)
    (dt : ℚ) (hfl : IsRounding fl) (hc : fl current = current) :
    amountToLimitR fl current target lo hi
        = (if target > current then fl (hi - current) else fl (current - lo))
      ∧ SlewTowardR fl current target lo hi curve dt
          = FMath.LerpR fl current target
              (fl (curve.GetFloatValue (amountToLimitR fl current target lo hi) * dt))
      ∧ (0 ≤ fl (curve.GetFloatValue (amountToLimitR fl current target lo hi) * dt) →
          fl (curve.GetFloatValue (amountToLimitR fl current target lo hi) * dt) ≤ 1 →
          min current (FMath.LerpR fl current target 1)
              ≤ SlewTowardR fl current target lo hi curve dt
            ∧ SlewTowardR fl current target lo hi curve dt
              ≤ max current (FMath.LerpR fl current target 1))
      ∧ (fl (curve.GetFloatValue (amountToLimitR fl current target lo hi) * dt) = 1 →
          SlewTowardR fl current target lo hi curve dt = FMath.LerpR fl current target 1)
      ∧ (target = current → SlewTowardR fl current target lo hi curve dt = current)
      ∧ (dt = 0 → SlewTowardR fl current target lo hi curve dt = current)
      ∧ FMath.LerpR id current target 1 = target := by
  refine ⟨rfl, rfl, fun h0 h1 => ?_, fun h => ?_, fun h => ?_, fun h => ?_,
    FMath.LerpR_id_one current target⟩
  · rw [SlewTowardR_eq_LerpR]
    exact FMath.LerpR_between_full fl hfl _ _ _ hc h0 h1
  · rw [SlewTowardR_eq_LerpR, h]
  · rw [SlewTowardR_eq_LerpR, h]
    exact FMath.LerpR_self fl hfl current _ hc
  · rw [SlewTowardR_eq_LerpR, h, mul_zero, hfl.2.1]
    exact FMath.LerpR_zero fl hfl current target hc

/-- C18, amended, in single precision on the input of the counterexample: `current = -44.8f`
is a `float`, the step fraction is `1`, and the result `45.0000038...` lies between `current`
and the full-step value, which is `45.0000038...` too. -/
theorem C18_slew_amended_witness :
    f32 (-11744051 / 262144) = -11744051 / 262144
      ∧ FMath.LerpR f32 (-11744051 / 262144) 45 1 = 11796481 / 262144
      ∧ min (-11744051 / 262144) (FMath.LerpR f32 (-11744051 / 262144) 45 1)
          ≤ SlewTowardR f32 (-11744051 / 262144) 45 (-45) 45 ⟨fun _ => 1⟩ 1
      ∧ SlewTowardR f32 (-11744051 / 262144) 45 (-45) 45 ⟨fun _ => 1⟩ 1
          ≤ max (-11744051 / 262144) (FMath.LerpR f32 (-11744051 / 262144) 45 1) := by
  have h := (C18_slew_amended f32 (-11744051 / 262144) 45 (-45) 45 ⟨fun _ => 1⟩ 1
    f32_isRounding f32_neg_44_8_fix).2.2.1 (by norm_num [f32_one]) (by norm_num [f32_one])
  refine ⟨f32_neg_44_8_fix, ?_, h.1, h.2⟩
  norm_num [FMath.LerpR, f32_span, f32_span_fix, f32_past_45]

/-! ## The roll section keeps the roll state in range -/

end Wings
